import Mathlib

set_option autoImplicit false

/-!
# Verification of the window registry and recycling state machine (`src/modules/windows.js`)

This file gives a shallow embedding of the window-lifecycle manager: the
`Window` handle class and the `Windows` registry class, together with the
asynchronous native-toolkit events (`did-finish-load`, `close`, `closed`)
delivered on the single control thread.

Modelling conventions:
* JS objects used as string-keyed maps (`this._windows`) become association
  lists in insertion order; `obj[k] = v` replaces the value in place when the
  key exists, `delete obj[k]` removes the entry, and `for...in` / underscore
  `_.find` iterate in insertion order.
* Handle objects are mutable and aliased (the registry's map, the
  `genericWindow` field and the local variables all reference the same
  object), so handles live in a single store `handles : List Window` keyed by
  a unique `wid`, and every reference is a `wid`.
* External collaborators are modelled by state counters and flags:
  `new BrowserWindow(...)` increments `nativeCount`; `app.quit()` increments
  `quitCount`; `global.store.getState().ui.appQuit` is the flag `appQuit`;
  `webContents.send` appends to `sent`.
* Asynchronous toolkit callbacks are explicit state transformers
  (`finishLoad`, `nativeCloseRequest`, `processClosed`) that a trace applies
  after the operation that scheduled them, matching the single-threaded
  event-driven execution of the source.
* `global.interfacePopupsUrl`, `global.mode` and `global.defaultWindow` are
  external configuration values, modelled as fixed constants.
* The electron option fields not observable through the registry logic
  (preload script paths, `parent`, chrome flags, ...) are omitted; the merge
  of the option objects (`_.deepExtend`, later source wins field by field) is
  modelled on the fields the registry logic reads.
-/

/-- External configuration `global.interfacePopupsUrl`. -/
def interfacePopupsUrl : String := "app://interface/popups.html"

/-- External configuration `global.mode`. -/
def appMode : String := "mist"

/-- External configuration `global.defaultWindow.width`. -/
def defaultWindowWidth : Nat := 1100

/-- External configuration `global.defaultWindow.height`. -/
def defaultWindowHeight : Nat := 720

/-- A JS `ownerId` value: `undefined` (field never set), `null`
(the explicit default in `createPopup`'s `defaultPopupOpts`), or an id.
JS `===` on these values is decidable equality. -/
inductive OwnerId where
  | undef
  | onull
  | oid (n : Nat)
deriving DecidableEq, Repr

/-- The option object passed to `create` / `createPopup` / `new Window`,
restricted to the fields the registry logic reads.  `none` means the field is
absent (JS `undefined`). `width`/`height` stand for
`electronOptions.width` / `electronOptions.height`. -/
structure Opts where
  primary : Option Bool := none
  isPopup : Option Bool := none
  ownerId : Option OwnerId := none
  isAvailable : Option Bool := none
  url : Option String := none
  show_ : Option Bool := none
  useWeb3 : Option Bool := none
  width : Option Nat := none
  height : Option Nat := none
deriving DecidableEq, Repr

/-- Field-wise override: the second (later) source wins when it provides the
field, as in `_.deepExtend` at the granularity of the fields we model. -/
def ov {α : Type} (a b : Option α) : Option α :=
  match b with
  | some x => some x
  | none => a

/-- Model of `_.deepExtend a b`: fields of `b` override fields of `a`. -/
def Opts.merge (a b : Opts) : Opts :=
  { primary := ov a.primary b.primary
    isPopup := ov a.isPopup b.isPopup
    ownerId := ov a.ownerId b.ownerId
    isAvailable := ov a.isAvailable b.isAvailable
    url := ov a.url b.url
    show_ := ov a.show_ b.show_
    useWeb3 := ov a.useWeb3 b.useWeb3
    width := ov a.width b.width
    height := ov a.height b.height }

/-- The `ownerId` the `Window` constructor stores and the dedup check in
`create` compares: the field's value, `undefined` when absent. -/
def Opts.ownerVal (o : Opts) : OwnerId :=
  o.ownerId.getD OwnerId.undef

/-- Model of `getDefaultOptionsForType(type)`: the per-type preset switch, restricted
to the modelled fields; unknown types get the empty preset. -/
def getDefaultOptionsForType (type : String) : Opts :=
  if type = "main" then
    { primary := some true
      width := some (max defaultWindowWidth 500)
      height := some (max defaultWindowHeight 440) }
  else if type = "splash" then
    { primary := some true
      url := some (interfacePopupsUrl ++ "#splashScreen_" ++ appMode)
      show_ := some true
      width := some 400
      height := some 230 }
  else if type = "loading" then
    { show_ := some false
      url := some (interfacePopupsUrl ++ "#loadingWindow")
      width := some 100
      height := some 80 }
  else if type = "onboardingScreen" then
    { primary := some true, width := some 576, height := some 442 }
  else if type = "about" then
    { width := some 420, height := some 230 }
  else if type = "remix" then
    { url := some "https://remix.ethereum.org"
      width := some 1024
      height := some 720 }
  else if type = "importAccount" then
    { width := some 600, height := some 370 }
  else if type = "requestAccount" then
    { width := some 420, height := some 230 }
  else if type = "connectAccount" then
    { width := some 460, height := some 520 }
  else if type = "sendTransactionConfirmation" then
    { width := some 580, height := some 550 }
  else if type = "updateAvailable" then
    { useWeb3 := some false, width := some 580, height := some 250 }
  else if type = "clientUpdateAvailable" then
    { useWeb3 := some false, width := some 600, height := some 340 }
  else
    {}

/-- The `defaultPopupOpts` object built at the top of `createPopup(type, ...)`. -/
def defaultPopupOpts (type : String) : Opts :=
  { url := some (interfacePopupsUrl ++ "#" ++ type)
    show_ := some true
    ownerId := some OwnerId.onull
    useWeb3 := some true
    width := some 400
    height := some 400 }

/-- The merged options `createPopup` computes:
`_.deepExtend(defaultPopupOpts, getDefaultOptionsForType(type), options)`
followed by the assignment `opts.isPopup = true`.  (The `parent` reference
and the preload-script choice are not observable in the registry logic and
are omitted.) -/
def popupMerge (type : String) (options : Opts) : Opts :=
  { Opts.merge (Opts.merge (defaultPopupOpts type) (getDefaultOptionsForType type)) options with
      isPopup := some true }

/-- One `Window` handle: its persistent fields plus the state of the
once-listeners its constructor and `reuse` register.
* `readyArmed`: the constructor's `webContents.once('did-finish-load')`
  listener (which sets `isContentReady`, sends `opts.sendData`, shows the
  window when `opts.show`, and emits `ready`) has not fired yet.
* `reuseShowArmed`: `reuse` registered
  `webContents.once('did-finish-load', () => this.show())` and it has not
  fired yet.
* `hideLoadingOnReady`: `createPopup` registered `wnd.once('ready', ...)`
  whose body hides the loading window (the body is a no-op when the
  requested type is `genericWindow`, which the flag accounts for).
* `showOnLoad` is the constructor closure's captured `opts.show`.
* `nativeId` identifies the underlying native `BrowserWindow`; it never
  changes after construction, so equal `nativeId` means the native resource
  was preserved. -/
structure Window where
  wid : Nat
  nativeId : Nat
  type : String
  isPrimary : Bool
  isPopup : Bool
  ownerId : OwnerId
  isAvailable : Bool
  isContentReady : Bool
  isShown : Bool
  isClosed : Bool
  url : Option String
  width : Nat
  height : Nat
  showOnLoad : Bool
  readyArmed : Bool
  reuseShowArmed : Bool
  hideLoadingOnReady : Bool
  callback : Option Nat
deriving DecidableEq, Repr

/-- The `Window` constructor: field initialisation, electron defaults
(width 1100, height 720) merged under the caller's `electronOptions`, one
`new BrowserWindow` (counted by the caller), and the initial `load(opts.url)`
when a url is given (the handle is fresh, so `load`'s `isClosed` guard
passes and the url is simply recorded). -/
def mkWindow (wid : Nat) (type : String) (opts : Opts) : Window :=
  { wid := wid
    nativeId := wid
    type := type
    isPrimary := opts.primary.getD false
    isPopup := opts.isPopup.getD false
    ownerId := opts.ownerVal
    isAvailable := opts.isAvailable.getD false
    isContentReady := false
    isShown := false
    isClosed := false
    url := opts.url
    width := opts.width.getD 1100
    height := opts.height.getD 720
    showOnLoad := opts.show_.getD false
    readyArmed := true
    reuseShowArmed := false
    hideLoadingOnReady := false
    callback := none }

/-- Model of `Window.show()`: no-op when closed, else native show and `isShown = true`. -/
def Window.show_ (w : Window) : Window :=
  if w.isClosed then w else { w with isShown := true }

/-- Model of `Window.hide()`: no-op when closed, else native hide and `isShown = false`. -/
def Window.hide (w : Window) : Window :=
  if w.isClosed then w else { w with isShown := false }

/-- Model of `Window.load(url)`: no-op when closed, else navigate the native surface
(recorded as the current `url`; completion arrives later as a
`did-finish-load` event). -/
def Window.load (w : Window) (url : String) : Window :=
  if w.isClosed then w else { w with url := some url }

/-- Guard of `Window.send(...)`: the message is delivered only when the handle
is not closed and the content is ready. -/
def Window.canSend (w : Window) : Bool :=
  !w.isClosed && w.isContentReady

/-- Model of `Window.close()`.  Returns the updated handle and whether a native
`window.close()` was issued (which will later produce a `closed` event).
For `genericWindow` the close is redirected: hide, mark available, keep the
native window. -/
def Window.close (w : Window) : Window × Bool :=
  if w.isClosed then (w, false)
  else if w.type = "genericWindow" then
    ({ w.hide with isAvailable := true }, false)
  else
    (w, true)

/-- Model of `Window.reuse(type, options, callback)`: clear `isAvailable`, load the
new url when given, resize to the requested dimensions, and arm a one-shot
show on the next `did-finish-load`.  The `callback` parameter is accepted
and ignored, the `type` parameter is only logged, and nothing is returned
(the registry-level `createPopup` therefore produces no handle on this
path). -/
def Window.reuse (w : Window) (_type : String) (options : Opts) (_callback : Option Nat) : Window :=
  let w1 : Window := { w with isAvailable := false }
  let w2 : Window :=
    match options.url with
    | some u => w1.load u
    | none => w1
  { w2 with
      width := options.width.getD w2.width
      height := options.height.getD w2.height
      reuseShowArmed := true }

/-- The state of the `Windows` registry together with its external
collaborators (native toolkit, app, store). -/
structure MgrState where
  handles : List Window
  winMap : List (String × Nat)
  loadingWid : Option Nat
  nextWid : Nat
  nativeCount : Nat
  quitCount : Nat
  appQuit : Bool
  sent : List (Nat × String)
deriving DecidableEq, Repr

/-- The fresh registry (`new Windows()`), app not quitting. -/
def MgrState.empty : MgrState :=
  { handles := []
    winMap := []
    loadingWid := none
    nextWid := 0
    nativeCount := 0
    quitCount := 0
    appQuit := false
    sent := [] }

/-- Dereference a handle id. -/
def MgrState.getHandle (s : MgrState) (wid : Nat) : Option Window :=
  s.handles.find? (fun h => h.wid == wid)

/-- Mutate the handle object `w.wid` refers to (all aliases observe it). -/
def MgrState.setHandle (s : MgrState) (w : Window) : MgrState :=
  { s with handles := s.handles.map (fun h => if h.wid == w.wid then w else h) }

/-- Model of `this._windows[type] = wnd`: replace in place when the key exists, else
append (JS object insertion-order semantics). -/
def jsSet (m : List (String × Nat)) (k : String) (v : Nat) : List (String × Nat) :=
  if m.any (fun p => p.1 == k) then
    m.map (fun p => if p.1 == k then (k, v) else p)
  else
    m ++ [(k, v)]

/-- The `for (const t in this._windows) { if (this._windows[t] === wnd) { delete ...; break } }`
loop of `_onWindowClosed`: delete the first entry whose value is the closed
handle. -/
def jsDelFirst : List (String × Nat) → Nat → List (String × Nat)
  | [], _ => []
  | p :: rest, wid => if p.2 == wid then rest else p :: jsDelFirst rest wid

/-- The values of `this._windows` in iteration order (what `_.find` and
`_.each` traverse). -/
def MgrState.mapWindows (s : MgrState) : List Window :=
  s.winMap.filterMap (fun p => s.getHandle p.2)

/-- Model of `getByType(type)`: first registered window whose `type` field matches. -/
def MgrState.getByType (s : MgrState) (type : String) : Option Window :=
  s.mapWindows.find? (fun w => w.type == type)

/-- Whether a generic pooled window exists and is available — the condition
of the recycling branch of `createPopup`. -/
def MgrState.genericAvailable (s : MgrState) : Bool :=
  match s.getByType "genericWindow" with
  | some gw => gw.isAvailable
  | none => false

/-- Whether `create`'s dedup check fires for the given (already merged)
options: a window of this type exists and its `ownerId` is `===` to the
merged `ownerId`. -/
def MgrState.dedupHit (s : MgrState) (type : String) (options : Opts) : Bool :=
  match s.getByType type with
  | some existing => decide (existing.ownerId = options.ownerVal)
  | none => false

/-- The non-dedup tail of `create`: `new Window(this, type, options)` (one
native construction), registration under `this._windows[type]`, and callback
attachment.  The `closed` listener it installs is modelled by `processClosed`
always running `_onWindowClosed`. -/
def MgrState.createNew (s : MgrState) (type : String) (options : Opts)
    (callback : Option Nat) : MgrState × Nat :=
  let wid := s.nextWid
  let w : Window := { mkWindow wid type options with callback := callback }
  ({ s with
      handles := s.handles ++ [w]
      winMap := jsSet s.winMap type wid
      nextWid := wid + 1
      nativeCount := s.nativeCount + 1 }, wid)

/-- Model of `Windows.create(type, opts, callback)`: merge the type preset under the
caller options, return the existing handle when the dedup check fires,
otherwise construct and register a new handle. -/
def MgrState.create (s : MgrState) (type : String) (opts : Opts)
    (callback : Option Nat) : MgrState × Nat :=
  let options := Opts.merge (getDefaultOptionsForType type) opts
  match s.getByType type with
  | some existing =>
      if existing.ownerId = options.ownerVal then (s, existing.wid)
      else s.createNew type options callback
  | none => s.createNew type options callback

/-- Model of `this.loading.show()`. -/
def MgrState.loadingShow (s : MgrState) : MgrState :=
  match s.loadingWid with
  | some lw =>
      match s.getHandle lw with
      | some lwin => s.setHandle lwin.show_
      | none => s
  | none => s

/-- Model of `this.loading.hide()`. -/
def MgrState.loadingHide (s : MgrState) : MgrState :=
  match s.loadingWid with
  | some lw =>
      match s.getHandle lw with
      | some lwin => s.setHandle lwin.hide
      | none => s
  | none => s

/-- The non-recycling tail of `createPopup`: show the loading indicator
(unless the requested type is `genericWindow`), `create(type, opts, callback)`,
and register `wnd.once('ready', ...)` to hide the loading indicator (a no-op
for type `genericWindow`). -/
def MgrState.popupFresh (s : MgrState) (type : String) (opts : Opts)
    (callback : Option Nat) : MgrState × Option Nat :=
  let s1 := if type ≠ "genericWindow" then s.loadingShow else s
  let r := s1.create type opts callback
  let s3 :=
    match r.1.getHandle r.2 with
    | some w => r.1.setHandle { w with hideLoadingOnReady := decide (type ≠ "genericWindow") }
    | none => r.1
  (s3, some r.2)

/-- Model of `Windows.createPopup(type, options, callback)`: merge the popup
defaults, the type preset and the caller options; when an available generic
pooled window exists, `reuse` it in place (returning its `undefined` result,
hence no handle); otherwise fall through to loading indicator + `create`. -/
def MgrState.createPopup (s : MgrState) (type : String) (options : Opts)
    (callback : Option Nat) : MgrState × Option Nat :=
  let opts := popupMerge type options
  match s.getByType "genericWindow" with
  | some gw =>
      if gw.isAvailable then
        (s.setHandle (gw.reuse type opts callback), none)
      else
        s.popupFresh type opts callback
  | none => s.popupFresh type opts callback

/-- Model of `Windows.init()`: create the loading window, then bootstrap the generic
pooled window through `createPopup` with `isAvailable: true, show: false`. -/
def MgrState.init (s : MgrState) : MgrState :=
  let r := s.create "loading" {} none
  let s1 := { r.1 with loadingWid := some r.2 }
  (s1.createPopup "genericWindow" { isAvailable := some true, show_ := some false } none).1

/-- A caller invoking `handle.show()`. -/
def MgrState.showHandle (s : MgrState) (wid : Nat) : MgrState :=
  match s.getHandle wid with
  | some w => s.setHandle w.show_
  | none => s

/-- A caller invoking `handle.hide()`. -/
def MgrState.hideHandle (s : MgrState) (wid : Nat) : MgrState :=
  match s.getHandle wid with
  | some w => s.setHandle w.hide
  | none => s

/-- A caller invoking `handle.close()`.  The returned flag records whether a
native `window.close()` was issued (a `closed` event will follow it). -/
def MgrState.closeHandle (s : MgrState) (wid : Nat) : MgrState × Bool :=
  match s.getHandle wid with
  | some w =>
      let r := w.close
      (s.setHandle r.1, r.2)
  | none => (s, false)

/-- A caller invoking `handle.send(channel, ...)`: delivered to the content
process only when the handle is not closed and the content is ready;
otherwise silently dropped with no state change and no queueing. -/
def MgrState.sendTo (s : MgrState) (wid : Nat) (channel : String) : MgrState :=
  match s.getHandle wid with
  | some w =>
      if w.canSend then { s with sent := s.sent ++ [(wid, channel)] } else s
  | none => s

/-- The native-toolkit `close` request event (`window.on('close')`), e.g.
the user clicking the close control or electron processing
`window.close()`.  When the handle's type is `genericWindow` and the app is
not quitting, the request is cancelled (`e.preventDefault()`) and redirected
to `this.close()`; otherwise it proceeds (returned flag `true`) and a
`closed` event will follow. -/
def MgrState.nativeCloseRequest (s : MgrState) (wid : Nat) : MgrState × Bool :=
  match s.getHandle wid with
  | some w =>
      if w.type = "genericWindow" ∧ s.appQuit = false then
        (s.setHandle (w.close).1, false)
      else
        (s, true)
  | none => (s, true)

/-- Model of `Windows._onWindowClosed(wnd)`: remove the exact closed instance from
the map, then quit the app unless some remaining registered handle is
primary, not closed, and shown. -/
def MgrState.onWindowClosed (s : MgrState) (wid : Nat) : MgrState :=
  let s1 := { s with winMap := jsDelFirst s.winMap wid }
  let anyOpen := s1.mapWindows.any (fun w => w.isPrimary && !w.isClosed && w.isShown)
  if anyOpen then s1 else { s1 with quitCount := s1.quitCount + 1 }

/-- The native `closed` event (`window.once('closed')`): set the terminal
flags and emit `closed`, whose only listener is the registry's
`_onWindowClosed`.  `once` semantics: the event fires at most once per
handle, which the `isClosed` guard encodes. -/
def MgrState.processClosed (s : MgrState) (wid : Nat) : MgrState :=
  match s.getHandle wid with
  | some w =>
      if w.isClosed then s
      else
        let w1 : Window := { w with isShown := false, isClosed := true, isContentReady := false }
        (s.setHandle w1).onWindowClosed wid
  | none => s

/-- The `webContents` `did-finish-load` event: the constructor's one-shot
listener (set `isContentReady`, show when `opts.show`, emit `ready` — whose
only possible listener hides the loading window unless the type is
`genericWindow`), then `reuse`'s one-shot listener (show). -/
def MgrState.finishLoad (s : MgrState) (wid : Nat) : MgrState :=
  match s.getHandle wid with
  | none => s
  | some w =>
      let fire := w.readyArmed
      let w1 :=
        if fire then
          let wa : Window :=
            { w with isContentReady := true, readyArmed := false, hideLoadingOnReady := false }
          if w.showOnLoad then wa.show_ else wa
        else w
      let w2 := if w1.reuseShowArmed then ({ w1 with reuseShowArmed := false }).show_ else w1
      let s1 := s.setHandle w2
      if fire && w.hideLoadingOnReady && !(w.type == "genericWindow") then
        s1.loadingHide
      else s1

/-! ## Helper lemmas about the handle store and the registry map -/

theorem find?_map_invariant {α : Type} (f : α → α) (p : α → Bool) (l : List α)
    (hf : ∀ x, p (f x) = p x) :
    (l.map f).find? p = (l.find? p).map f := by
  induction l with
  | nil => rfl
  | cons a t ih =>
    cases ha : p a with
    | true =>
      have : p (f a) = true := (hf a).trans ha
      simp [List.find?, ha, this]
    | false =>
      have : p (f a) = false := (hf a).trans ha
      simp [List.find?, ha, this, ih]

theorem find?_map_invariant_mem {α : Type} (f : α → α) (p : α → Bool) (l : List α)
    (hf : ∀ x ∈ l, p (f x) = p x) :
    (l.map f).find? p = (l.find? p).map f := by
  induction l with
  | nil => rfl
  | cons a t ih =>
    have ha' := hf a (List.mem_cons_self a t)
    rw [List.map_cons]
    cases ha : p a with
    | true =>
      rw [List.find?_cons_of_pos _ (ha'.trans ha), List.find?_cons_of_pos _ ha]
      rfl
    | false =>
      rw [List.find?_cons_of_neg _ (by simp [ha'.trans ha]),
        List.find?_cons_of_neg _ (by simp [ha])]
      exact ih (fun x hx => hf x (List.mem_cons_of_mem a hx))

theorem find?_append_some {α : Type} {l1 l2 : List α} {p : α → Bool} {a : α}
    (h : l1.find? p = some a) : (l1 ++ l2).find? p = some a := by
  rw [List.find?_append, h]
  rfl

theorem find?_append_none {α : Type} {l1 l2 : List α} {p : α → Bool}
    (h : l1.find? p = none) : (l1 ++ l2).find? p = l2.find? p := by
  rw [List.find?_append, h]
  rfl

/-- Mutating the object `w.wid` refers to rewrites every dereference:
the store read after the write sees the replacement. -/
theorem getHandle_setHandle (s : MgrState) (w : Window) (x : Nat) :
    (s.setHandle w).getHandle x
      = (s.getHandle x).map (fun h => if h.wid == w.wid then w else h) := by
  unfold MgrState.getHandle MgrState.setHandle
  refine find?_map_invariant _ _ _ (fun h => ?_)
  by_cases hw : h.wid = w.wid
  · simp [hw]
  · simp [beq_eq_false_iff_ne.mpr hw]

theorem getHandle_setHandle_self (s : MgrState) (w g : Window)
    (h : s.getHandle w.wid = some g) :
    (s.setHandle w).getHandle w.wid = some w := by
  have hg : g.wid = w.wid := by
    have := List.find?_some h
    simpa using this
  rw [getHandle_setHandle, h]
  simp [hg]

theorem getHandle_setHandle_other (s : MgrState) (w : Window) (x : Nat)
    (hne : w.wid ≠ x) :
    (s.setHandle w).getHandle x = s.getHandle x := by
  rw [getHandle_setHandle]
  cases h : s.getHandle x with
  | none => rfl
  | some g =>
    have hg : g.wid = x := by
      have := List.find?_some h
      simpa using this
    have hb : (g.wid == w.wid) = false := by
      refine beq_eq_false_iff_ne.mpr ?_
      rw [hg]
      exact fun hc => hne hc.symm
    show Option.map (fun h => if h.wid == w.wid then w else h) (some g) = some g
    simp only [Option.map_some', hb, Bool.false_eq_true, if_false]

theorem wid_of_getHandle (s : MgrState) (x : Nat) (w : Window)
    (h : s.getHandle x = some w) : w.wid = x := by
  have := List.find?_some h
  simpa using this

/-- Writing any window `v` with `v.wid = x` over a store that can currently
dereference `x` makes `x` dereference to `v`. -/
theorem getHandle_setHandle_self' (s : MgrState) (x : Nat) (w v : Window)
    (h : s.getHandle x = some w) (hv : v.wid = x) :
    (s.setHandle v).getHandle x = some v := by
  rw [getHandle_setHandle, h, Option.map_some']
  have hb : (w.wid == v.wid) = true := by
    rw [hv, wid_of_getHandle s x w h]
    simp
  rw [hb]
  simp

theorem mem_handles_of_getHandle (s : MgrState) (x : Nat) (w : Window)
    (h : s.getHandle x = some w) : w ∈ s.handles :=
  List.mem_of_find?_eq_some h

theorem mapWindows_setHandle (s : MgrState) (w : Window) :
    (s.setHandle w).mapWindows
      = s.mapWindows.map (fun h => if h.wid == w.wid then w else h) := by
  unfold MgrState.mapWindows
  have h1 : (s.setHandle w).winMap = s.winMap := rfl
  rw [h1]
  have h2 : ∀ p : String × Nat,
      (s.setHandle w).getHandle p.2
        = (s.getHandle p.2).map (fun h => if h.wid == w.wid then w else h) :=
    fun p => getHandle_setHandle s w p.2
  calc s.winMap.filterMap (fun p => (s.setHandle w).getHandle p.2)
      = s.winMap.filterMap
          (fun p => (s.getHandle p.2).map (fun h => if h.wid == w.wid then w else h)) := by
        exact List.filterMap_congr (fun p _ => h2 p)
    _ = (s.winMap.filterMap (fun p => s.getHandle p.2)).map
          (fun h => if h.wid == w.wid then w else h) := by
        rw [List.map_filterMap]

theorem mem_handles_of_mem_mapWindows (s : MgrState) (x : Window)
    (hx : x ∈ s.mapWindows) : x ∈ s.handles := by
  obtain ⟨p, _, hg⟩ := List.mem_filterMap.mp hx
  exact mem_handles_of_getHandle s p.2 x hg

theorem getByType_getHandle (s : MgrState) (type : String) (g : Window)
    (h : s.getByType type = some g) :
    s.getHandle g.wid = some g ∧ g.type = type := by
  have h' : s.mapWindows.find? (fun w => w.type == type) = some g := h
  have hmem : g ∈ s.mapWindows := List.mem_of_find?_eq_some h'
  have hp := @List.find?_some Window (fun w => w.type == type) g s.mapWindows h'
  obtain ⟨p, _, hpg⟩ := List.mem_filterMap.mp hmem
  have hw : g.wid = p.2 := wid_of_getHandle s p.2 g hpg
  refine ⟨?_, by simpa using hp⟩
  rw [hw]
  exact hpg

theorem mem_jsDelFirst {m : List (String × Nat)} {p : String × Nat} {wid : Nat}
    (hmem : p ∈ m) (hne : p.2 ≠ wid) : p ∈ jsDelFirst m wid := by
  induction m with
  | nil => cases hmem
  | cons q t ih =>
    by_cases hq : q.2 = wid
    · have hqb : (q.2 == wid) = true := beq_iff_eq.mpr hq
      simp only [jsDelFirst, hqb, if_true]
      rcases List.mem_cons.mp hmem with rfl | hmem'
      · exact absurd hq hne
      · exact hmem'
    · have hqb : (q.2 == wid) = false := beq_eq_false_iff_ne.mpr hq
      simp only [jsDelFirst, hqb, if_false, Bool.false_eq_true]
      rcases List.mem_cons.mp hmem with rfl | hmem'
      · exact List.mem_cons_self p _
      · exact List.mem_cons_of_mem q (ih hmem')

/-! ### Field lemmas for `Window.reuse` (the branch on `options.url` and the
`isClosed` guard of `load` keep these from being definitional) -/

theorem reuse_wid (w : Window) (t : String) (o : Opts) (c : Option Nat) :
    (w.reuse t o c).wid = w.wid := by
  unfold Window.reuse Window.load
  cases o.url <;> cases hw : w.isClosed <;> simp [hw]

theorem reuse_nativeId (w : Window) (t : String) (o : Opts) (c : Option Nat) :
    (w.reuse t o c).nativeId = w.nativeId := by
  unfold Window.reuse Window.load
  cases o.url <;> cases hw : w.isClosed <;> simp [hw]

theorem reuse_type (w : Window) (t : String) (o : Opts) (c : Option Nat) :
    (w.reuse t o c).type = w.type := by
  unfold Window.reuse Window.load
  cases o.url <;> cases hw : w.isClosed <;> simp [hw]

theorem reuse_isClosed (w : Window) (t : String) (o : Opts) (c : Option Nat) :
    (w.reuse t o c).isClosed = w.isClosed := by
  unfold Window.reuse Window.load
  cases o.url <;> cases hw : w.isClosed <;> simp [hw]

theorem reuse_isAvailable (w : Window) (t : String) (o : Opts) (c : Option Nat) :
    (w.reuse t o c).isAvailable = false := by
  unfold Window.reuse Window.load
  cases o.url <;> cases hw : w.isClosed <;> simp [hw]

theorem reuse_reuseShowArmed (w : Window) (t : String) (o : Opts) (c : Option Nat) :
    (w.reuse t o c).reuseShowArmed = true := by
  unfold Window.reuse Window.load
  cases o.url <;> cases hw : w.isClosed <;> simp [hw]

theorem reuse_width (w : Window) (t : String) (o : Opts) (c : Option Nat) :
    (w.reuse t o c).width = o.width.getD w.width := by
  unfold Window.reuse Window.load
  cases o.url <;> cases hw : w.isClosed <;> simp [hw]

theorem reuse_height (w : Window) (t : String) (o : Opts) (c : Option Nat) :
    (w.reuse t o c).height = o.height.getD w.height := by
  unfold Window.reuse Window.load
  cases o.url <;> cases hw : w.isClosed <;> simp [hw]

theorem reuse_url_of_some (w : Window) (t : String) (o : Opts) (c : Option Nat)
    (hnc : w.isClosed = false) (u : String) (hu : o.url = some u) :
    (w.reuse t o c).url = some u := by
  unfold Window.reuse Window.load
  rw [hu]
  simp [hnc]

theorem reuse_callback (w : Window) (t : String) (o : Opts) (c : Option Nat) :
    (w.reuse t o c).callback = w.callback := by
  unfold Window.reuse Window.load
  cases o.url <;> cases hw : w.isClosed <;> simp [hw]

theorem reuse_readyArmed (w : Window) (t : String) (o : Opts) (c : Option Nat) :
    (w.reuse t o c).readyArmed = w.readyArmed := by
  unfold Window.reuse Window.load
  cases o.url <;> cases hw : w.isClosed <;> simp [hw]

theorem reuse_showOnLoad (w : Window) (t : String) (o : Opts) (c : Option Nat) :
    (w.reuse t o c).showOnLoad = w.showOnLoad := by
  unfold Window.reuse Window.load
  cases o.url <;> cases hw : w.isClosed <;> simp [hw]

theorem reuse_hideLoadingOnReady (w : Window) (t : String) (o : Opts) (c : Option Nat) :
    (w.reuse t o c).hideLoadingOnReady = w.hideLoadingOnReady := by
  unfold Window.reuse Window.load
  cases o.url <;> cases hw : w.isClosed <;> simp [hw]

/-- The merged options of `createPopup` always carry a url (the popup default
provides one even when neither the preset nor the caller does). -/
theorem popupMerge_url_isSome (t : String) (o : Opts) :
    ∃ u, (popupMerge t o).url = some u := by
  unfold popupMerge defaultPopupOpts Opts.merge ov
  cases hc : o.url with
  | some u => exact ⟨u, by simp [hc]⟩
  | none =>
    cases hb : (getDefaultOptionsForType t).url with
    | some u => exact ⟨u, by simp [hb]⟩
    | none => exact ⟨interfacePopupsUrl ++ "#" ++ t, by simp [hc, hb]⟩

/-! ### Projection helpers -/

theorem winMap_setHandle (s : MgrState) (w : Window) :
    (s.setHandle w).winMap = s.winMap := rfl

theorem quitCount_setHandle (s : MgrState) (w : Window) :
    (s.setHandle w).quitCount = s.quitCount := rfl

theorem mapWindows_quitCount (s : MgrState) (n : Nat) :
    ({ s with quitCount := n }).mapWindows = s.mapWindows := rfl

/-! ### Concrete states used by witnesses and counterexamples -/

/-- Placeholder for total dereferencing in witness statements. -/
def dummyWindow : Window := mkWindow 0 "unused" {}

/-- The registry right after `init()`: the loading window is handle 0, the
generic pooled window is handle 1 (created available, not shown). -/
def initState : MgrState := MgrState.empty.init

/-- Total dereference of a handle id in a concrete state. -/
def wAt (s : MgrState) (wid : Nat) : Window := (s.getHandle wid).getD dummyWindow

/-- Total `getByType` in a concrete state. -/
def wByType (s : MgrState) (type : String) : Window := (s.getByType type).getD dummyWindow

/-! ## C8 -/

/-- C8: a `send` on a handle that is closed or whose content is not yet
ready returns without error and leaves the whole system state unchanged —
in particular nothing is queued, so the message can never be delivered
later, not even after the `ready` event subsequently fires. -/
theorem send_dropped_when_not_ready (s : MgrState) (wid : Nat) (channel : String)
    (w : Window) (h : s.getHandle wid = some w)
    (hc : w.isClosed = true ∨ w.isContentReady = false) :
    s.sendTo wid channel = s := by
  unfold MgrState.sendTo
  rw [h]
  have hcs : w.canSend = false := by
    unfold Window.canSend
    rcases hc with hc | hc <;> simp [hc]
  simp [hcs]

/-- Witness for C8: sending to the freshly initialised generic window
(content not yet ready) is a complete no-op. -/
theorem send_dropped_when_not_ready_witness :
    initState.sendTo 1 "uiAction_sendData" = initState :=
  send_dropped_when_not_ready initState 1 "uiAction_sendData" (wAt initState 1)
    rfl (Or.inr rfl)

/-! ## C5 -/

/-- C5: when `create(type, opts)` finds an existing window of the same type
whose `ownerId` equals the merged requested `ownerId`, it returns that
existing handle and the state — registry map, handle store, native-window
count — is left completely unchanged (idempotent creation). -/
theorem create_dedup_idempotent (s : MgrState) (type : String) (opts : Opts)
    (callback : Option Nat) (existing : Window)
    (hex : s.getByType type = some existing)
    (hown : existing.ownerId = (Opts.merge (getDefaultOptionsForType type) opts).ownerVal) :
    s.create type opts callback = (s, existing.wid) := by
  unfold MgrState.create
  rw [hex]
  simp [hown]

/-- The registry after `init()` and one `create("main")` (handle 2). -/
def c5State : MgrState := (initState.create "main" {} none).1

/-- Witness for C5: a second `create("main")` with the same (absent)
`ownerId` returns the handle created by the first call and changes nothing. -/
theorem create_dedup_idempotent_witness :
    c5State.create "main" {} none = (c5State, (wByType c5State "main").wid) :=
  create_dedup_idempotent c5State "main" {} none (wByType c5State "main") rfl rfl

/-! ## C3 -/

/-- C3: while the app is not quitting, no close request on a live
`genericWindow` handle — neither `close()` nor a native-level close request —
ever sets `isClosed`; the handle ends hidden (`isShown = false`), marked
available, with the same native resource, and its registry entry intact. -/
theorem genericWindow_close_never_closes (s : MgrState) (wid : Nat) (w : Window)
    (h : s.getHandle wid = some w) (ht : w.type = "genericWindow")
    (hq : s.appQuit = false) (hnc : w.isClosed = false) :
    ((s.closeHandle wid).2 = false ∧ (s.nativeCloseRequest wid).2 = false) ∧
    (∃ w1, (s.closeHandle wid).1.getHandle wid = some w1 ∧
      w1.isClosed = false ∧ w1.isShown = false ∧ w1.isAvailable = true ∧
      w1.nativeId = w.nativeId) ∧
    (∃ w2, (s.nativeCloseRequest wid).1.getHandle wid = some w2 ∧
      w2.isClosed = false ∧ w2.isShown = false ∧ w2.isAvailable = true ∧
      w2.nativeId = w.nativeId) ∧
    (s.closeHandle wid).1.winMap = s.winMap ∧
    (s.nativeCloseRequest wid).1.winMap = s.winMap := by
  have hww : w.wid = wid := wid_of_getHandle s wid w h
  have hclose : w.close = ({ w with isShown := false, isAvailable := true }, false) := by
    unfold Window.close Window.hide
    simp [hnc, ht]
  have hch : s.closeHandle wid = (s.setHandle { w with isShown := false, isAvailable := true }, false) := by
    unfold MgrState.closeHandle
    rw [h]
    show (s.setHandle (w.close).1, (w.close).2) = _
    rw [hclose]
  have hncr : s.nativeCloseRequest wid
      = (s.setHandle { w with isShown := false, isAvailable := true }, false) := by
    unfold MgrState.nativeCloseRequest
    rw [h]
    show (if w.type = "genericWindow" ∧ s.appQuit = false
        then (s.setHandle (w.close).1, false) else (s, true)) = _
    rw [if_pos ⟨ht, hq⟩]
    rw [hclose]
  have hget : (s.setHandle { w with isShown := false, isAvailable := true }).getHandle wid
      = some { w with isShown := false, isAvailable := true } :=
    getHandle_setHandle_self' s wid w _ h hww
  refine ⟨⟨by simp [hch], by simp [hncr]⟩,
    ⟨{ w with isShown := false, isAvailable := true }, by rw [hch]; exact hget, hnc, rfl, rfl, rfl⟩,
    ⟨{ w with isShown := false, isAvailable := true }, by rw [hncr]; exact hget, hnc, rfl, rfl, rfl⟩,
    by simp [hch, winMap_setHandle], by simp [hncr, winMap_setHandle]⟩

/-- Witness for C3: closing the live pooled generic window of the
initialised registry hides it, marks it available and keeps it registered. -/
theorem genericWindow_close_never_closes_witness :
    (((initState.closeHandle 1).2 = false ∧ (initState.nativeCloseRequest 1).2 = false) ∧
    (∃ w1, (initState.closeHandle 1).1.getHandle 1 = some w1 ∧
      w1.isClosed = false ∧ w1.isShown = false ∧ w1.isAvailable = true ∧
      w1.nativeId = (wAt initState 1).nativeId) ∧
    (∃ w2, (initState.nativeCloseRequest 1).1.getHandle 1 = some w2 ∧
      w2.isClosed = false ∧ w2.isShown = false ∧ w2.isAvailable = true ∧
      w2.nativeId = (wAt initState 1).nativeId) ∧
    (initState.closeHandle 1).1.winMap = initState.winMap ∧
    (initState.nativeCloseRequest 1).1.winMap = initState.winMap) :=
  genericWindow_close_never_closes initState 1 (wAt initState 1) rfl rfl rfl rfl

/-! ## C2 -/

/-- C2: when the registry processes a handle's `closed` event, the handle is
removed from the windows map, and the application-quit action is invoked
(exactly once) if and only if no remaining registered handle satisfies
`isPrimary && !isClosed && isShown` — so a hidden-but-not-closed primary
window counts exactly like a closed one. -/
theorem closed_event_quit_iff (s : MgrState) (wid : Nat) (w : Window)
    (h : s.getHandle wid = some w) (hnc : w.isClosed = false) :
    ((s.processClosed wid).winMap = jsDelFirst s.winMap wid) ∧
    ((s.processClosed wid).quitCount = s.quitCount + 1 ↔
      ∀ w' ∈ (s.processClosed wid).mapWindows,
        (w'.isPrimary && !w'.isClosed && w'.isShown) = false) := by
  unfold MgrState.processClosed MgrState.onWindowClosed
  rw [h]
  simp only [hnc, Bool.false_eq_true, if_false]
  split
  case isTrue hA =>
    refine ⟨rfl, ?_⟩
    constructor
    · intro hq
      exact absurd hq (by simp [quitCount_setHandle])
    · intro hall
      obtain ⟨x, hx, hpx⟩ := List.any_eq_true.mp hA
      exact absurd (hall x hx) (by simp [hpx])
  case isFalse hA =>
    rw [Bool.not_eq_true] at hA
    refine ⟨rfl, ?_⟩
    constructor
    · intro _ x hx
      have := List.any_eq_false.mp hA x hx
      simpa using this
    · intro _
      rfl

/-- Witness for C2: processing the closed event of the loading window on
the initialised registry (no visible primary remains) removes it from the
map and invokes the quit action. -/
theorem closed_event_quit_iff_witness :
    ((initState.processClosed 0).winMap = jsDelFirst initState.winMap 0) ∧
    ((initState.processClosed 0).quitCount = initState.quitCount + 1 ↔
      ∀ w' ∈ (initState.processClosed 0).mapWindows,
        (w'.isPrimary && !w'.isClosed && w'.isShown) = false) :=
  closed_event_quit_iff initState 0 (wAt initState 0) rfl rfl

/-! ## C1 -/

/-- After `reuse` armed its one-shot show listener, the next
`did-finish-load` event on the pooled window (whose type is still
`genericWindow`) leaves it shown, whether or not the constructor's own
one-shot listener was still pending. -/
theorem finishLoad_shows_reuse_armed (t : MgrState) (x : Nat) (v : Window)
    (h : t.getHandle x = some v) (harm : v.reuseShowArmed = true)
    (hnc : v.isClosed = false) (htype : v.type = "genericWindow") :
    ((t.finishLoad x).getHandle x).map Window.isShown = some true := by
  have hwid : v.wid = x := wid_of_getHandle t x v h
  cases hra : v.readyArmed with
  | false =>
    have key : t.finishLoad x = t.setHandle (({ v with reuseShowArmed := false }).show_) := by
      unfold MgrState.finishLoad
      rw [h]
      simp [hra, harm, htype, Window.show_, hnc]
    rw [key]
    have hw2 : (({ v with reuseShowArmed := false } : Window).show_).wid = x := by
      simp [Window.show_, hnc, hwid]
    rw [getHandle_setHandle_self' t x v _ h hw2]
    simp [Window.show_, hnc]
  | true =>
    cases hso : v.showOnLoad with
    | false =>
      have key : t.finishLoad x = t.setHandle
          { v with
              isContentReady := true
              readyArmed := false
              hideLoadingOnReady := false
              isShown := true
              reuseShowArmed := false } := by
        unfold MgrState.finishLoad
        rw [h]
        simp [hra, hso, harm, htype, Window.show_, hnc]
      rw [key]
      rw [getHandle_setHandle_self' t x v
        ({ v with
            isContentReady := true
            readyArmed := false
            hideLoadingOnReady := false
            isShown := true
            reuseShowArmed := false }) h hwid]
      rfl
    | true =>
      have key : t.finishLoad x = t.setHandle
          { v with
              isContentReady := true
              readyArmed := false
              hideLoadingOnReady := false
              isShown := true
              reuseShowArmed := false } := by
        unfold MgrState.finishLoad
        rw [h]
        simp [hra, hso, harm, htype, Window.show_, hnc]
      rw [key]
      rw [getHandle_setHandle_self' t x v
        ({ v with
            isContentReady := true
            readyArmed := false
            hideLoadingOnReady := false
            isShown := true
            reuseShowArmed := false }) h hwid]
      rfl

/-- C1: a `createPopup` made while a registered generic pooled window is
available constructs no new native window and no new handle; instead
`reuse` runs on the pooled handle: `isAvailable` is cleared, the merged url
is loaded, the existing native window (same `nativeId`) is resized to the
merged dimensions, a show is armed for the next content load (and the next
`did-finish-load` indeed shows the window), and the registry map is
untouched. -/
theorem createPopup_recycles (s : MgrState) (type : String) (options : Opts)
    (callback : Option Nat) (gw : Window)
    (hgw : s.getByType "genericWindow" = some gw)
    (hav : gw.isAvailable = true) (hnc : gw.isClosed = false) :
    (s.createPopup type options callback).1.nativeCount = s.nativeCount ∧
    (s.createPopup type options callback).1.nextWid = s.nextWid ∧
    (s.createPopup type options callback).1.handles.length = s.handles.length ∧
    (s.createPopup type options callback).1.winMap = s.winMap ∧
    (s.createPopup type options callback).2 = none ∧
    (∃ gw', (s.createPopup type options callback).1.getHandle gw.wid = some gw' ∧
      gw'.isAvailable = false ∧
      gw'.url = (popupMerge type options).url ∧
      gw'.width = (popupMerge type options).width.getD gw.width ∧
      gw'.height = (popupMerge type options).height.getD gw.height ∧
      gw'.reuseShowArmed = true ∧
      gw'.isClosed = false ∧
      gw'.nativeId = gw.nativeId) ∧
    (((s.createPopup type options callback).1.finishLoad gw.wid).getHandle gw.wid).map
      Window.isShown = some true := by
  obtain ⟨hgh, hgt⟩ := getByType_getHandle s "genericWindow" gw hgw
  have hcp : s.createPopup type options callback
      = (s.setHandle (gw.reuse type (popupMerge type options) callback), none) := by
    unfold MgrState.createPopup
    rw [hgw]
    simp [hav]
  have hwid : (gw.reuse type (popupMerge type options) callback).wid = gw.wid :=
    reuse_wid gw type (popupMerge type options) callback
  have hget : (s.setHandle (gw.reuse type (popupMerge type options) callback)).getHandle gw.wid
      = some (gw.reuse type (popupMerge type options) callback) :=
    getHandle_setHandle_self' s gw.wid gw _ hgh hwid
  rw [hcp]
  refine ⟨rfl, rfl, by simp [MgrState.setHandle], rfl, rfl, ?_, ?_⟩
  · refine ⟨gw.reuse type (popupMerge type options) callback, hget,
      reuse_isAvailable gw type _ callback, ?_,
      reuse_width gw type _ callback, reuse_height gw type _ callback,
      reuse_reuseShowArmed gw type _ callback, ?_,
      reuse_nativeId gw type _ callback⟩
    · obtain ⟨u, hu⟩ := popupMerge_url_isSome type options
      rw [hu]
      exact reuse_url_of_some gw type _ callback hnc u hu
    · rw [reuse_isClosed]
      exact hnc
  · refine finishLoad_shows_reuse_armed _ gw.wid _ hget
      (reuse_reuseShowArmed gw type _ callback) ?_ ?_
    · rw [reuse_isClosed]
      exact hnc
    · rw [reuse_type]
      exact hgt

/-- Witness for C1: `createPopup("about")` on the initialised registry
(pooled generic window 1 available) recycles handle 1 in place. -/
theorem createPopup_recycles_witness :
    ((initState.createPopup "about" {} none).1.nativeCount = initState.nativeCount ∧
    (initState.createPopup "about" {} none).1.nextWid = initState.nextWid ∧
    (initState.createPopup "about" {} none).1.handles.length = initState.handles.length ∧
    (initState.createPopup "about" {} none).1.winMap = initState.winMap ∧
    (initState.createPopup "about" {} none).2 = none ∧
    (∃ gw', (initState.createPopup "about" {} none).1.getHandle (wAt initState 1).wid = some gw' ∧
      gw'.isAvailable = false ∧
      gw'.url = (popupMerge "about" {}).url ∧
      gw'.width = (popupMerge "about" {}).width.getD (wAt initState 1).width ∧
      gw'.height = (popupMerge "about" {}).height.getD (wAt initState 1).height ∧
      gw'.reuseShowArmed = true ∧
      gw'.isClosed = false ∧
      gw'.nativeId = (wAt initState 1).nativeId) ∧
    (((initState.createPopup "about" {} none).1.finishLoad (wAt initState 1).wid).getHandle
      (wAt initState 1).wid).map Window.isShown = some true) :=
  createPopup_recycles initState "about" {} none (wAt initState 1) rfl rfl rfl

/-! ## C4 -/

/-- The non-recycling tail of `createPopup` always returns a handle id
(`create` is total: it returns either the deduplicated existing handle or
the freshly constructed one). -/
theorem popupFresh_snd (s : MgrState) (type : String) (opts : Opts) (cb : Option Nat) :
    (s.popupFresh type opts cb).2
      = some ((if type ≠ "genericWindow" then s.loadingShow else s).create type opts cb).2 := rfl

/-- Counterexample for C4: on the recycling path `createPopup` returns the
result of `reuse`, which is `undefined` — no handle — and the recycled
handle's `type` field is not changed to the requested popup type: after
`createPopup("about")` on the initialised registry the pooled handle is
still of type `"genericWindow"`. -/
theorem createPopup_return_counterexample :
    initState.genericAvailable = true ∧
    (initState.createPopup "about" {} none).2 = none ∧
    ((initState.createPopup "about" {} none).1.getHandle 1).map Window.type
      = some "genericWindow" :=
  ⟨rfl, rfl, rfl⟩

/-- C4 amended: `createPopup` returns the resulting handle only on the
non-recycling path; when the pooled generic window is available it returns
`reuse`'s result, which is no handle at all (`undefined`), and the pooled
handle keeps its `type` field `"genericWindow"` — so a recycled call is
distinguishable from a fresh one through the interface. -/
theorem createPopup_return_amended (s : MgrState) (type : String) (options : Opts)
    (callback : Option Nat) (gw : Window)
    (hgw : s.getByType "genericWindow" = some gw) :
    (gw.isAvailable = true →
      (s.createPopup type options callback).2 = none ∧
      ((s.createPopup type options callback).1.getHandle gw.wid).map Window.type
        = some gw.type) ∧
    (gw.isAvailable = false →
      ∃ wid, (s.createPopup type options callback).2 = some wid) := by
  obtain ⟨hgh, hgt⟩ := getByType_getHandle s "genericWindow" gw hgw
  constructor
  · intro hav
    have hcp : s.createPopup type options callback
        = (s.setHandle (gw.reuse type (popupMerge type options) callback), none) := by
      unfold MgrState.createPopup
      rw [hgw]
      simp [hav]
    rw [hcp]
    refine ⟨rfl, ?_⟩
    have hwid : (gw.reuse type (popupMerge type options) callback).wid = gw.wid :=
      reuse_wid gw type (popupMerge type options) callback
    rw [getHandle_setHandle_self' s gw.wid gw _ hgh hwid, Option.map_some', reuse_type]
  · intro hav
    have hcp : s.createPopup type options callback
        = s.popupFresh type (popupMerge type options) callback := by
      unfold MgrState.createPopup
      rw [hgw]
      simp [hav]
    rw [hcp]
    exact ⟨_, popupFresh_snd s type (popupMerge type options) callback⟩

/-- Witness for the amended C4 at the initialised registry. -/
theorem createPopup_return_amended_witness :
    (((wAt initState 1).isAvailable = true →
      (initState.createPopup "about" {} none).2 = none ∧
      ((initState.createPopup "about" {} none).1.getHandle (wAt initState 1).wid).map Window.type
        = some (wAt initState 1).type) ∧
    ((wAt initState 1).isAvailable = false →
      ∃ wid, (initState.createPopup "about" {} none).2 = some wid)) :=
  createPopup_return_amended initState "about" {} none (wAt initState 1) rfl

/-! ## C6 -/

/-- The removal step keeps the post-removal scan's positive outcome: when
some remaining registered handle is primary, unclosed and shown,
`_onWindowClosed` does not quit. -/
theorem onWindowClosed_no_quit (s : MgrState) (wid : Nat)
    (hany : ({ s with winMap := jsDelFirst s.winMap wid }).mapWindows.any
      (fun x => x.isPrimary && !x.isClosed && x.isShown) = true) :
    s.onWindowClosed wid = { s with winMap := jsDelFirst s.winMap wid } := by
  unfold MgrState.onWindowClosed
  simp [hany]

/-- C6 amended: processing the closed event of a non-primary handle does not
invoke the quit action as long as some other registered handle is primary,
not closed and shown; but the shutdown scan looks only at the remaining
handles, so when no visible primary remains, even a non-primary handle's
closed event quits the app (see the counterexample). -/
theorem nonprimary_close_no_quit_while_primary_visible (s : MgrState) (wid : Nat)
    (w w' : Window)
    (h : s.getHandle wid = some w) (hnc : w.isClosed = false) (hnp : w.isPrimary = false)
    (hmem : w' ∈ s.mapWindows) (hne : w'.wid ≠ wid)
    (hp : w'.isPrimary = true) (hc : w'.isClosed = false) (hs : w'.isShown = true) :
    (s.processClosed wid).quitCount = s.quitCount := by
  have hww : w.wid = wid := wid_of_getHandle s wid w h
  have hpc : s.processClosed wid
      = (s.setHandle { w with isShown := false, isClosed := true, isContentReady := false }).onWindowClosed wid := by
    unfold MgrState.processClosed
    rw [h]
    simp [hnc]
  obtain ⟨p, hpmem, hpg⟩ := List.mem_filterMap.mp hmem
  have hpwid : w'.wid = p.2 := wid_of_getHandle s p.2 w' hpg
  have hpne : p.2 ≠ wid := by
    rw [← hpwid]
    exact hne
  have hne2 : w.wid ≠ p.2 := by
    rw [hww]
    exact fun hc2 => hpne hc2.symm
  have hg2 : (s.setHandle { w with isShown := false, isClosed := true, isContentReady := false }).getHandle p.2
      = some w' :=
    (getHandle_setHandle_other s
      { w with isShown := false, isClosed := true, isContentReady := false } p.2 hne2).trans hpg
  have hmem2 : w' ∈ ({ s.setHandle { w with isShown := false, isClosed := true, isContentReady := false } with
      winMap := jsDelFirst (s.setHandle { w with isShown := false, isClosed := true, isContentReady := false }).winMap wid }).mapWindows := by
    refine List.mem_filterMap.mpr ⟨p, ?_, ?_⟩
    · exact mem_jsDelFirst hpmem hpne
    · exact hg2
  have hany : ({ s.setHandle { w with isShown := false, isClosed := true, isContentReady := false } with
      winMap := jsDelFirst (s.setHandle { w with isShown := false, isClosed := true, isContentReady := false }).winMap wid }).mapWindows.any
      (fun x => x.isPrimary && !x.isClosed && x.isShown) = true :=
    List.any_eq_true.mpr ⟨w', hmem2, by simp [hp, hc, hs]⟩
  rw [hpc, onWindowClosed_no_quit _ wid hany]
  rfl

/-- The registry after `init()`, `create("main", {show: true})`, the main
window's content load (main shown), then hiding main and the user clicking
the close control of the loading window (a non-generic window, so the
request proceeds). -/
def c6Base : MgrState :=
  let r := initState.create "main" { show_ := some true } none
  let s1 := r.1.finishLoad r.2
  s1.hideHandle r.2

/-- Counterexample for C6: in `c6Base` the primary main window is hidden
(not closed); processing the closed event of the non-primary loading window
(handle 0) invokes the application-quit action — so closing a non-primary
handle can by itself quit the app. -/
theorem nonprimary_close_quits_counterexample :
    (c6Base.getHandle 0).map Window.isPrimary = some false ∧
    (c6Base.getHandle 2).map (fun w => (w.isPrimary, w.isClosed, w.isShown))
      = some (true, false, false) ∧
    (c6Base.nativeCloseRequest 0).2 = true ∧
    c6Base.quitCount = 0 ∧
    (((c6Base.nativeCloseRequest 0).1.processClosed 0)).quitCount = 1 :=
  ⟨rfl, rfl, rfl, rfl, rfl⟩

/-- The registry after `init()`, `create("main", {show: true})` and main's
content load: main (handle 2) is primary, open and shown. -/
def c6WitState : MgrState :=
  let r := initState.create "main" { show_ := some true } none
  r.1.finishLoad r.2

/-- Witness for the amended C6: closing the loading window while main is
visible does not quit. -/
theorem nonprimary_close_no_quit_witness :
    (c6WitState.processClosed 0).quitCount = c6WitState.quitCount :=
  nonprimary_close_no_quit_while_primary_visible c6WitState 0
    (wAt c6WitState 0) (wAt c6WitState 2) rfl rfl rfl (by decide) (by decide) rfl rfl rfl

/-! ## C7 -/

/-- Stage 1 of the claimed scenario: `init()`, then `create("main", {show:
true})` (handle 2) and its content load — main is primary and shown. -/
def c7r1 : MgrState × Nat := initState.create "main" { show_ := some true } none

def c7s1 : MgrState := c7r1.1.finishLoad c7r1.2

/-- Stage 2: `createPopup("about")`, which takes the recycling path (the
pooled generic window, handle 1, is available). -/
def c7s2 : MgrState := (c7s1.createPopup "about" {} none).1

/-- Stage 3: close the "about" popup, i.e. `close()` on the recycled pooled
handle 1. -/
def c7s3 : MgrState := (c7s2.closeHandle 1).1

/-- Stage 4: hide main. -/
def c7s4 : MgrState := c7s3.hideHandle 2

/-- Counterexample for C7: in the claimed trace the quit action is never
invoked — after hiding main, `quitCount` is 0, not 1.  Closing the recycled
"about" window is intercepted (its type is still `genericWindow`), so no
`closed` event is ever processed, and `hide()` does not run the shutdown
scan. -/
theorem scenario_quit_counterexample :
    (c7s1.createPopup "about" {} none).2 = none ∧
    c7s2.nativeCount = c7s1.nativeCount ∧
    c7s4.quitCount = 0 ∧
    c7s4.quitCount ≠ 1 :=
  ⟨rfl, rfl, rfl, by decide⟩

/-- C7 amended: in the trace create main (primary, shown) → recycle the
pooled window into "about" → close "about" → hide main, the app never
quits: closing "about" only hides the pooled handle and marks it available
(no closed event, main still open, no quit), and hiding main does not
trigger the shutdown check either, because that check runs only when a
closed event is processed. -/
theorem scenario_no_quit_amended :
    ((c7s1.getHandle 2).map (fun w => (w.isPrimary, w.isShown)) = some (true, true)) ∧
    (c7s1.createPopup "about" {} none).2 = none ∧
    c7s2.nativeCount = c7s1.nativeCount ∧
    ((c7s3.getHandle 1).map (fun w => (w.isClosed, w.isShown, w.isAvailable))
      = some (false, false, true)) ∧
    c7s3.quitCount = 0 ∧
    ((c7s4.getHandle 2).map (fun w => (w.isShown, w.isClosed)) = some (false, false)) ∧
    c7s4.quitCount = 0 :=
  ⟨rfl, rfl, rfl, rfl, rfl, rfl, rfl⟩

/-! ## C10 -/

/-- A non-deduplicated `create` makes the fresh handle (with the callback
attached) dereferenceable at the returned id, provided the fresh id was not
already in use. -/
theorem getHandle_createNew (s : MgrState) (type : String) (options : Opts) (cb : Option Nat)
    (hfresh : s.getHandle s.nextWid = none) :
    (s.createNew type options cb).1.getHandle (s.createNew type options cb).2
      = some { mkWindow s.nextWid type options with callback := cb } := by
  show (s.handles ++ [{ mkWindow s.nextWid type options with callback := cb }]).find?
      (fun h => h.wid == s.nextWid)
    = some { mkWindow s.nextWid type options with callback := cb }
  rw [find?_append_none hfresh]
  simp [List.find?, mkWindow]

/-- C10: on the recycling path of `createPopup` the caller's callback is
discarded — the result does not depend on the callback argument at all, the
pooled handle's `callback` field is unchanged and no new handle exists to
carry it — whereas a non-deduplicated `create` attaches the callback to the
handle it returns as `handle.callback`. -/
theorem recycle_discards_callback (s : MgrState) (type : String) (options : Opts)
    (cb : Nat) (gw : Window)
    (hgw : s.getByType "genericWindow" = some gw) (hav : gw.isAvailable = true)
    (s2 : MgrState) (type2 : String) (opts2 : Opts) (cb2 : Nat)
    (hnd : s2.dedupHit type2 (Opts.merge (getDefaultOptionsForType type2) opts2) = false)
    (hfresh2 : s2.getHandle s2.nextWid = none) :
    (∀ cbAlt : Option Nat, s.createPopup type options (some cb) = s.createPopup type options cbAlt) ∧
    ((s.createPopup type options (some cb)).1.getHandle gw.wid).map Window.callback
      = some gw.callback ∧
    (s.createPopup type options (some cb)).1.handles.length = s.handles.length ∧
    ((s2.create type2 opts2 (some cb2)).1.getHandle (s2.create type2 opts2 (some cb2)).2).map
      Window.callback = some (some cb2) := by
  obtain ⟨hgh, hgt⟩ := getByType_getHandle s "genericWindow" gw hgw
  have hcp : ∀ c : Option Nat, s.createPopup type options c
      = (s.setHandle (gw.reuse type (popupMerge type options) c), none) := by
    intro c
    unfold MgrState.createPopup
    rw [hgw]
    simp [hav]
  have hcr : s2.create type2 opts2 (some cb2)
      = s2.createNew type2 (Opts.merge (getDefaultOptionsForType type2) opts2) (some cb2) := by
    rcases hbt : s2.getByType type2 with _ | ex
    · unfold MgrState.create
      rw [hbt]
    · unfold MgrState.dedupHit at hnd
      simp only [hbt] at hnd
      have hne : ex.ownerId ≠ (Opts.merge (getDefaultOptionsForType type2) opts2).ownerVal :=
        of_decide_eq_false hnd
      unfold MgrState.create
      rw [hbt]
      simp [hne]
  refine ⟨?_, ?_, ?_, ?_⟩
  · intro cbAlt
    rw [hcp (some cb), hcp cbAlt]
    rfl
  · rw [hcp (some cb)]
    have hwid : (gw.reuse type (popupMerge type options) (some cb)).wid = gw.wid :=
      reuse_wid gw type (popupMerge type options) (some cb)
    rw [getHandle_setHandle_self' s gw.wid gw _ hgh hwid, Option.map_some',
      reuse_callback]
  · rw [hcp (some cb)]
    simp [MgrState.setHandle]
  · rw [hcr, getHandle_createNew s2 type2 _ (some cb2) hfresh2]
    rfl

/-- Witness for C10: recycling `createPopup("about", ..., 7)` on the
initialised registry ignores the callback; a fresh `create("main", ..., 9)`
attaches it. -/
theorem recycle_discards_callback_witness :
    (initState.createPopup "about" {} (some 7) = initState.createPopup "about" {} none) ∧
    ((initState.createPopup "about" {} (some 7)).1.getHandle (wAt initState 1).wid).map
      Window.callback = some (wAt initState 1).callback ∧
    (initState.createPopup "about" {} (some 7)).1.handles.length = initState.handles.length ∧
    ((initState.create "main" {} (some 9)).1.getHandle (initState.create "main" {} (some 9)).2).map
      Window.callback = some (some 9) := by
  have h := recycle_discards_callback initState "about" {} 7 (wAt initState 1) rfl rfl
    initState "main" {} 9 rfl rfl
  exact ⟨h.1 none, h.2.1, h.2.2.1, h.2.2.2⟩

/-! ## C9 -/

/-! ### Field lemmas for `Window.show_` / `Window.hide` -/

theorem show_wid (w : Window) : w.show_.wid = w.wid := by
  unfold Window.show_
  cases hw : w.isClosed <;> simp [hw]

theorem show_type (w : Window) : w.show_.type = w.type := by
  unfold Window.show_
  cases hw : w.isClosed <;> simp [hw]

theorem show_ownerId (w : Window) : w.show_.ownerId = w.ownerId := by
  unfold Window.show_
  cases hw : w.isClosed <;> simp [hw]

theorem show_isClosed (w : Window) : w.show_.isClosed = w.isClosed := by
  unfold Window.show_
  cases hw : w.isClosed <;> simp [hw]

theorem show_isShown_of_open (w : Window) (h : w.isClosed = false) :
    w.show_.isShown = true := by
  unfold Window.show_
  simp [h]

theorem hide_wid (w : Window) : w.hide.wid = w.wid := by
  unfold Window.hide
  cases hw : w.isClosed <;> simp [hw]

theorem hide_isShown_of_open (w : Window) (h : w.isClosed = false) :
    w.hide.isShown = false := by
  unfold Window.hide
  simp [h]

/-! ### Store well-formedness: distinct handle ids -/

theorem find?_wid_of_mem (l : List Window) (hwf : (l.map Window.wid).Nodup)
    (x : Window) (hx : x ∈ l) : l.find? (fun h => h.wid == x.wid) = some x := by
  induction l with
  | nil => cases hx
  | cons a t ih =>
    rw [List.map_cons, List.nodup_cons] at hwf
    obtain ⟨hna, hnt⟩ := hwf
    rcases List.mem_cons.mp hx with rfl | hxt
    · rw [List.find?_cons_of_pos _ (by simp)]
    · have hane : a.wid ≠ x.wid := by
        intro hcc
        exact hna (hcc ▸ List.mem_map_of_mem Window.wid hxt)
      rw [List.find?_cons_of_neg _ (by simp [hane])]
      exact ih hnt hxt

theorem getHandle_of_mem (s : MgrState) (hwf : (s.handles.map Window.wid).Nodup)
    (x : Window) (hx : x ∈ s.handles) : s.getHandle x.wid = some x :=
  find?_wid_of_mem s.handles hwf x hx

/-- Replacing the window at `v.wid` by a window of the same type commutes
with the type-indexed lookup (well-formed store). -/
theorem getByType_setHandle_same_type (s : MgrState) (u v : Window) (t : String)
    (hwf : (s.handles.map Window.wid).Nodup)
    (hu : s.getHandle v.wid = some u) (htv : v.type = u.type) :
    (s.setHandle v).getByType t
      = (s.getByType t).map (fun h => if h.wid == v.wid then v else h) := by
  unfold MgrState.getByType
  rw [mapWindows_setHandle]
  refine find?_map_invariant_mem _ _ _ ?_
  intro x hx
  by_cases hxw : x.wid = v.wid
  · have hxh : x ∈ s.handles := mem_handles_of_mem_mapWindows s x hx
    have h1 : s.getHandle x.wid = some x := getHandle_of_mem s hwf x hxh
    rw [hxw, hu] at h1
    have hxu : x = u := (Option.some.inj h1).symm
    have hrep : (if x.wid == v.wid then v else x) = v := by simp [hxw]
    rw [hrep, htv, hxu]
  · have hrep : (if x.wid == v.wid then v else x) = x := by
      simp [beq_eq_false_iff_ne.mpr hxw]
    rw [hrep]

theorem rep_wid (v ex : Window) : (if ex.wid == v.wid then v else ex).wid = ex.wid := by
  by_cases hw : ex.wid = v.wid
  · simp [hw]
  · simp [beq_eq_false_iff_ne.mpr hw]

/-- The replacement written by a well-formed `setHandle` preserves the
`ownerId` seen by `create`'s dedup check. -/
theorem rep_ownerId (s : MgrState) (u v ex : Window) (t : String)
    (hwf : (s.handles.map Window.wid).Nodup)
    (hu : s.getHandle v.wid = some u) (hvo : v.ownerId = u.ownerId)
    (hex : s.getByType t = some ex) :
    (if ex.wid == v.wid then v else ex).ownerId = ex.ownerId := by
  by_cases hw : ex.wid = v.wid
  · have hex' : s.mapWindows.find? (fun w => w.type == t) = some ex := hex
    have hexh : ex ∈ s.handles :=
      mem_handles_of_mem_mapWindows s ex (List.mem_of_find?_eq_some hex')
    have h1 : s.getHandle ex.wid = some ex := getHandle_of_mem s hwf ex hexh
    rw [hw, hu] at h1
    have hue : u = ex := Option.some.inj h1
    rw [if_pos (by simp [hw]), hvo, hue]
  · rw [if_neg (by simp [beq_eq_false_iff_ne.mpr hw])]

/-- Appending a fresh handle does not disturb existing dereferences. -/
theorem getHandle_createNew_other (s : MgrState) (type : String) (options : Opts)
    (cb : Option Nat) (x : Nat) (w : Window) (h : s.getHandle x = some w) :
    (s.createNew type options cb).1.getHandle x = some w := by
  show (s.handles ++ [{ mkWindow s.nextWid type options with callback := cb }]).find?
      (fun h => h.wid == x) = some w
  exact find?_append_some h

/-- Calling `this.loading.hide()` leaves the loading window hidden (when it is
dereferenceable and not closed). -/
theorem loadingHide_shows_false (u : MgrState) (lw : Nat) (lwin2 : Window)
    (hlw : u.loadingWid = some lw) (hlg : u.getHandle lw = some lwin2)
    (hlc2 : lwin2.isClosed = false) :
    ((u.loadingHide).getHandle lw).map Window.isShown = some false := by
  have hw : lwin2.hide.wid = lw :=
    (hide_wid lwin2).trans (wid_of_getHandle u lw lwin2 hlg)
  have key : u.loadingHide = u.setHandle lwin2.hide := by
    unfold MgrState.loadingHide
    rw [hlw]
    show (match u.getHandle lw with
      | some lwin => u.setHandle lwin.hide
      | none => u) = u.setHandle lwin2.hide
    rw [hlg]
  rw [key, getHandle_setHandle_self' u lw lwin2 lwin2.hide hlg hw, Option.map_some',
    hide_isShown_of_open lwin2 hlc2]

/-- The `ready` emission of a freshly created popup (armed ready listener,
no pending reuse-show, armed hide-loading listener, non-generic type) hides
the loading window. -/
theorem finishLoad_hides_loading (t : MgrState) (x : Nat) (v : Window)
    (h : t.getHandle x = some v) (hra : v.readyArmed = true)
    (hnrs : v.reuseShowArmed = false) (hvnc : v.isClosed = false)
    (hhl : v.hideLoadingOnReady = true) (hnt : (v.type == "genericWindow") = false)
    (lw : Nat) (lwin2 : Window) (hlw : t.loadingWid = some lw) (hxlw : x ≠ lw)
    (hlg : t.getHandle lw = some lwin2) (hlc2 : lwin2.isClosed = false) :
    ((t.finishLoad x).getHandle lw).map Window.isShown = some false := by
  have hvw : v.wid = x := wid_of_getHandle t x v h
  cases hso : v.showOnLoad with
  | false =>
    have key : t.finishLoad x
        = (t.setHandle { v with
            isContentReady := true
            readyArmed := false
            hideLoadingOnReady := false }).loadingHide := by
      unfold MgrState.finishLoad
      rw [h]
      simp [hra, hso, hnrs, hhl, hnt]
    rw [key]
    refine loadingHide_shows_false _ lw lwin2 hlw ?_ hlc2
    refine (getHandle_setHandle_other t
      { v with
        isContentReady := true
        readyArmed := false
        hideLoadingOnReady := false }
      lw ?_).trans hlg
    show v.wid ≠ lw
    rw [hvw]
    exact hxlw
  | true =>
    have key : t.finishLoad x
        = (t.setHandle { v with
            isContentReady := true
            readyArmed := false
            hideLoadingOnReady := false
            isShown := true }).loadingHide := by
      unfold MgrState.finishLoad
      rw [h]
      simp [hra, hso, hnrs, hhl, hnt, Window.show_, hvnc]
    rw [key]
    refine loadingHide_shows_false _ lw lwin2 hlw ?_ hlc2
    refine (getHandle_setHandle_other t
      { v with
        isContentReady := true
        readyArmed := false
        hideLoadingOnReady := false
        isShown := true }
      lw ?_).trans hlg
    show v.wid ≠ lw
    rw [hvw]
    exact hxlw

/-- A `did-finish-load` on a window whose hide-loading listener is not
armed (and whose reuse-show listener is not armed) leaves every other
handle untouched — in particular the loading window keeps its visibility. -/
theorem finishLoad_no_hide_keeps (t : MgrState) (x : Nat) (v : Window)
    (h : t.getHandle x = some v) (hhl : v.hideLoadingOnReady = false)
    (hnrs : v.reuseShowArmed = false) (hvnc : v.isClosed = false)
    (lw : Nat) (lwin2 : Window) (hxlw : x ≠ lw) (hlg : t.getHandle lw = some lwin2) :
    ((t.finishLoad x).getHandle lw).map Window.isShown = some lwin2.isShown := by
  have hvw : v.wid = x := wid_of_getHandle t x v h
  have hne : v.wid ≠ lw := by
    rw [hvw]
    exact hxlw
  cases hra : v.readyArmed with
  | false =>
    have key : t.finishLoad x = t.setHandle v := by
      unfold MgrState.finishLoad
      rw [h]
      simp [hra, hnrs]
    rw [key, getHandle_setHandle_other t v lw hne, hlg, Option.map_some']
  | true =>
    cases hso : v.showOnLoad with
    | false =>
      have key : t.finishLoad x = t.setHandle
          { v with
            isContentReady := true
            readyArmed := false
            hideLoadingOnReady := false } := by
        unfold MgrState.finishLoad
        rw [h]
        simp [hra, hso, hnrs, hhl]
      rw [key]
      rw [getHandle_setHandle_other t
        { v with
          isContentReady := true
          readyArmed := false
          hideLoadingOnReady := false } lw hne]
      rw [hlg, Option.map_some']
    | true =>
      have key : t.finishLoad x = t.setHandle
          { v with
            isContentReady := true
            readyArmed := false
            hideLoadingOnReady := false
            isShown := true } := by
        unfold MgrState.finishLoad
        rw [h]
        simp [hra, hso, hnrs, hhl, Window.show_, hvnc]
      rw [key]
      rw [getHandle_setHandle_other t
        { v with
          isContentReady := true
          readyArmed := false
          hideLoadingOnReady := false
          isShown := true } lw hne]
      rw [hlg, Option.map_some']

/-- Helper for C9, the non-generic case: when `createPopup` takes the
non-recycling path for a type other than `"genericWindow"` (well-formed
handle store, live loading window, fresh id unused), the loading indicator
is shown before creation and the result ends with the loading window shown;
when no window of the requested type with the merged `ownerId` exists
(`dedupHit` false), exactly one new handle and one native window are
created, the new handle id is returned, and the new popup's `ready` event
hides the loading indicator; but when the dedup check fires, `create`
returns the existing handle and no new handle or native window is
created. -/
theorem createPopup_fresh_nongeneric (s : MgrState) (type : String) (options : Opts)
    (callback : Option Nat) (lw : Nat) (lwin : Window)
    (hng : s.genericAvailable = false)
    (htype : type ≠ "genericWindow")
    (hlw : s.loadingWid = some lw)
    (hlwin : s.getHandle lw = some lwin)
    (hlc : lwin.isClosed = false)
    (hfresh : s.getHandle s.nextWid = none)
    (hwf : (s.handles.map Window.wid).Nodup) :
    (((s.createPopup type options callback).1.getHandle lw).map Window.isShown = some true) ∧
    (s.dedupHit type (Opts.merge (getDefaultOptionsForType type) (popupMerge type options)) = true →
      (s.createPopup type options callback).1.nativeCount = s.nativeCount ∧
      (s.createPopup type options callback).1.handles.length = s.handles.length) ∧
    (s.dedupHit type (Opts.merge (getDefaultOptionsForType type) (popupMerge type options)) = false →
      (s.createPopup type options callback).1.nativeCount = s.nativeCount + 1 ∧
      (s.createPopup type options callback).1.handles.length = s.handles.length + 1 ∧
      (s.createPopup type options callback).2 = some s.nextWid ∧
      ((((s.createPopup type options callback).1.finishLoad s.nextWid).getHandle lw).map
        Window.isShown = some false)) := by
  have hlww : lwin.wid = lw := wid_of_getHandle s lw lwin hlwin
  have hswid : lwin.show_.wid = lw := (show_wid lwin).trans hlww
  have hlwne : lw ≠ s.nextWid := by
    intro hcc
    rw [hcc, hfresh] at hlwin
    cases hlwin
  have hcf : s.createPopup type options callback
      = s.popupFresh type (popupMerge type options) callback := by
    unfold MgrState.createPopup
    rcases hgb : s.getByType "genericWindow" with _ | gw
    · simp [hgb]
    · have hga : gw.isAvailable = false := by
        unfold MgrState.genericAvailable at hng
        rw [hgb] at hng
        exact hng
      simp [hgb, hga]
  have hs1 : s.loadingShow = s.setHandle lwin.show_ := by
    unfold MgrState.loadingShow
    rw [hlw]
    show (match s.getHandle lw with
      | some lwin3 => s.setHandle lwin3.show_
      | none => s) = s.setHandle lwin.show_
    rw [hlwin]
  have hG1 : (s.setHandle lwin.show_).getHandle lw = some lwin.show_ :=
    getHandle_setHandle_self' s lw lwin lwin.show_ hlwin hswid
  have hF1 : (s.setHandle lwin.show_).getHandle s.nextWid = none := by
    rw [getHandle_setHandle_other s lwin.show_ s.nextWid (by rw [hswid]; exact hlwne)]
    exact hfresh
  have hbt1 : ∀ t : String, (s.setHandle lwin.show_).getByType t
      = (s.getByType t).map (fun h => if h.wid == lwin.show_.wid then lwin.show_ else h) := by
    intro t
    refine getByType_setHandle_same_type s lwin lwin.show_ t hwf ?_ (show_type lwin)
    rw [hswid]
    exact hlwin
  -- shared fresh-path reasoning
  have freshMain : ((s.setHandle lwin.show_).create type (popupMerge type options) callback
        = (s.setHandle lwin.show_).createNew type
            (Opts.merge (getDefaultOptionsForType type) (popupMerge type options)) callback) →
      ((((s.createPopup type options callback).1.getHandle lw).map Window.isShown = some true) ∧
        (s.createPopup type options callback).1.nativeCount = s.nativeCount + 1 ∧
        (s.createPopup type options callback).1.handles.length = s.handles.length + 1 ∧
        (s.createPopup type options callback).2 = some s.nextWid ∧
        ((((s.createPopup type options callback).1.finishLoad s.nextWid).getHandle lw).map
          Window.isShown = some false)) := by
    intro hcd
    have key : s.createPopup type options callback
        = (((s.setHandle lwin.show_).createNew type
              (Opts.merge (getDefaultOptionsForType type) (popupMerge type options)) callback).1.setHandle
            { mkWindow s.nextWid type
                (Opts.merge (getDefaultOptionsForType type) (popupMerge type options)) with
                callback := callback
                hideLoadingOnReady := true },
           some s.nextWid) := by
      rw [hcf]
      simp only [MgrState.popupFresh, decide_eq_true htype]
      rw [if_pos htype, hs1, hcd,
        getHandle_createNew (s.setHandle lwin.show_) type
          (Opts.merge (getDefaultOptionsForType type) (popupMerge type options)) callback hF1]
      rfl
    have hG2 : ((s.setHandle lwin.show_).createNew type
        (Opts.merge (getDefaultOptionsForType type) (popupMerge type options)) callback).1.getHandle lw
        = some lwin.show_ :=
      getHandle_createNew_other _ type _ callback lw lwin.show_ hG1
    have hZne : s.nextWid ≠ lw := fun hcc => hlwne hcc.symm
    have hFlw : (s.createPopup type options callback).1.getHandle lw = some lwin.show_ := by
      rw [key]
      exact (getHandle_setHandle_other _ _ lw hZne).trans hG2
    have hW : ((s.setHandle lwin.show_).createNew type
        (Opts.merge (getDefaultOptionsForType type) (popupMerge type options)) callback).1.getHandle
          s.nextWid
        = some { mkWindow s.nextWid type
            (Opts.merge (getDefaultOptionsForType type) (popupMerge type options)) with
            callback := callback } :=
      getHandle_createNew (s.setHandle lwin.show_) type _ callback hF1
    have hFz : (s.createPopup type options callback).1.getHandle s.nextWid
        = some { mkWindow s.nextWid type
            (Opts.merge (getDefaultOptionsForType type) (popupMerge type options)) with
            callback := callback
            hideLoadingOnReady := true } := by
      rw [key]
      exact getHandle_setHandle_self' _ s.nextWid _ _ hW rfl
    refine ⟨?_, ?_, ?_, ?_, ?_⟩
    · rw [hFlw, Option.map_some', show_isShown_of_open lwin hlc]
    · rw [key]
      rfl
    · rw [key]
      simp [MgrState.setHandle, MgrState.createNew]
    · rw [key]
    · have hlw2 : (s.createPopup type options callback).1.loadingWid = some lw := by
        rw [key]
        exact hlw
      refine finishLoad_hides_loading _ s.nextWid _ hFz rfl rfl rfl rfl
        (beq_eq_false_iff_ne.mpr htype) lw lwin.show_ hlw2 hZne hFlw
        ((show_isClosed lwin).trans hlc)
  -- case split on the dedup outcome in the original state
  rcases hbt : s.getByType type with _ | ex
  · have hdd : s.dedupHit type
        (Opts.merge (getDefaultOptionsForType type) (popupMerge type options)) = false := by
      unfold MgrState.dedupHit
      rw [hbt]
    have hcd : (s.setHandle lwin.show_).create type (popupMerge type options) callback
        = (s.setHandle lwin.show_).createNew type
            (Opts.merge (getDefaultOptionsForType type) (popupMerge type options)) callback := by
      unfold MgrState.create
      rw [hbt1 type, hbt]
      rfl
    obtain ⟨hA, h1, h2, h3, h4⟩ := freshMain hcd
    exact ⟨hA, fun hcontra => absurd hcontra (by simp [hdd]), fun _ => ⟨h1, h2, h3, h4⟩⟩
  · have hexvo : (if ex.wid == lwin.show_.wid then lwin.show_ else ex).ownerId = ex.ownerId := by
      refine rep_ownerId s lwin lwin.show_ ex type hwf ?_ (show_ownerId lwin) hbt
      rw [hswid]
      exact hlwin
    have hbts1 : (s.setHandle lwin.show_).getByType type
        = some (if ex.wid == lwin.show_.wid then lwin.show_ else ex) := by
      rw [hbt1 type, hbt, Option.map_some']
    cases hde : decide (ex.ownerId
        = (Opts.merge (getDefaultOptionsForType type) (popupMerge type options)).ownerVal) with
    | false =>
      have hdd : s.dedupHit type
          (Opts.merge (getDefaultOptionsForType type) (popupMerge type options)) = false := by
        unfold MgrState.dedupHit
        rw [hbt]
        exact hde
      have hnde : ex.ownerId
          ≠ (Opts.merge (getDefaultOptionsForType type) (popupMerge type options)).ownerVal :=
        of_decide_eq_false hde
      have hcd : (s.setHandle lwin.show_).create type (popupMerge type options) callback
          = (s.setHandle lwin.show_).createNew type
              (Opts.merge (getDefaultOptionsForType type) (popupMerge type options)) callback := by
        unfold MgrState.create
        rw [hbts1]
        show (if (if ex.wid == lwin.show_.wid then lwin.show_ else ex).ownerId
              = (Opts.merge (getDefaultOptionsForType type) (popupMerge type options)).ownerVal
            then ((s.setHandle lwin.show_),
              (if ex.wid == lwin.show_.wid then lwin.show_ else ex).wid)
            else (s.setHandle lwin.show_).createNew type
              (Opts.merge (getDefaultOptionsForType type) (popupMerge type options)) callback)
          = (s.setHandle lwin.show_).createNew type
              (Opts.merge (getDefaultOptionsForType type) (popupMerge type options)) callback
        rw [if_neg (by rw [hexvo]; exact hnde)]
      obtain ⟨hA, h1, h2, h3, h4⟩ := freshMain hcd
      exact ⟨hA, fun hcontra => absurd hcontra (by simp [hdd]), fun _ => ⟨h1, h2, h3, h4⟩⟩
    | true =>
      have hdd : s.dedupHit type
          (Opts.merge (getDefaultOptionsForType type) (popupMerge type options)) = true := by
        unfold MgrState.dedupHit
        rw [hbt]
        exact hde
      have hde' : ex.ownerId
          = (Opts.merge (getDefaultOptionsForType type) (popupMerge type options)).ownerVal :=
        of_decide_eq_true hde
      have hcds : (s.setHandle lwin.show_).create type (popupMerge type options) callback
          = (s.setHandle lwin.show_, (if ex.wid == lwin.show_.wid then lwin.show_ else ex).wid) := by
        unfold MgrState.create
        rw [hbts1]
        show (if (if ex.wid == lwin.show_.wid then lwin.show_ else ex).ownerId
              = (Opts.merge (getDefaultOptionsForType type) (popupMerge type options)).ownerVal
            then ((s.setHandle lwin.show_),
              (if ex.wid == lwin.show_.wid then lwin.show_ else ex).wid)
            else (s.setHandle lwin.show_).createNew type
              (Opts.merge (getDefaultOptionsForType type) (popupMerge type options)) callback)
          = (s.setHandle lwin.show_, (if ex.wid == lwin.show_.wid then lwin.show_ else ex).wid)
        rw [if_pos (by rw [hexvo]; exact hde')]
      rcases hgx : (s.setHandle lwin.show_).getHandle
          (if ex.wid == lwin.show_.wid then lwin.show_ else ex).wid with _ | w0
      · have keyB : s.createPopup type options callback
            = (s.setHandle lwin.show_,
               some (if ex.wid == lwin.show_.wid then lwin.show_ else ex).wid) := by
          rw [hcf]
          simp only [MgrState.popupFresh]
          rw [if_pos htype, hs1, hcds, hgx]
        refine ⟨?_, fun _ => ⟨?_, ?_⟩, fun hcontra => absurd hcontra (by simp [hdd])⟩
        · rw [keyB, hG1, Option.map_some', show_isShown_of_open lwin hlc]
        · rw [keyB]
          rfl
        · rw [keyB]
          simp [MgrState.setHandle]
      · have hw0wid : w0.wid = (if ex.wid == lwin.show_.wid then lwin.show_ else ex).wid :=
          wid_of_getHandle _ _ _ hgx
        have keyB : s.createPopup type options callback
            = ((s.setHandle lwin.show_).setHandle { w0 with hideLoadingOnReady := true },
               some (if ex.wid == lwin.show_.wid then lwin.show_ else ex).wid) := by
          rw [hcf]
          simp only [MgrState.popupFresh, decide_eq_true htype]
          rw [if_pos htype, hs1, hcds, hgx]
        refine ⟨?_, fun _ => ⟨?_, ?_⟩, fun hcontra => absurd hcontra (by simp [hdd])⟩
        · by_cases hel : (if ex.wid == lwin.show_.wid then lwin.show_ else ex).wid = lw
          · have hw0 : w0 = lwin.show_ := by
              rw [hel] at hgx
              exact (Option.some.inj (hG1.symm.trans hgx)).symm
            rw [keyB]
            rw [getHandle_setHandle_self' (s.setHandle lwin.show_) lw lwin.show_
              { w0 with hideLoadingOnReady := true } hG1 (hw0wid.trans hel), Option.map_some']
            show some w0.isShown = some true
            rw [hw0, show_isShown_of_open lwin hlc]
          · rw [keyB]
            rw [getHandle_setHandle_other (s.setHandle lwin.show_)
              { w0 with hideLoadingOnReady := true } lw
              (by show w0.wid ≠ lw; rw [hw0wid]; exact hel)]
            rw [hG1, Option.map_some', show_isShown_of_open lwin hlc]
        · rw [keyB]
          rfl
        · rw [keyB]
          simp [MgrState.setHandle]

/-- Helper for C9, the genericWindow bootstrap case: when the type being
created is itself `"genericWindow"` (so necessarily on the non-recycling
path), the loading indicator is left alone — it is not shown before
`create`, and it is not hidden when the new content finishes loading — and
creation itself behaves as for any other type: one new handle and native
window unless the dedup check fires, in which case nothing is created. -/
theorem createPopup_generic_indicator (s : MgrState) (type : String) (options : Opts)
    (callback : Option Nat) (lw : Nat) (lwin : Window)
    (hng : s.genericAvailable = false)
    (htypeg : type = "genericWindow")
    (hlwin : s.getHandle lw = some lwin)
    (hfresh : s.getHandle s.nextWid = none) :
    (((s.createPopup type options callback).1.getHandle lw).map Window.isShown
      = some lwin.isShown) ∧
    (s.dedupHit type (Opts.merge (getDefaultOptionsForType type) (popupMerge type options)) = true →
      (s.createPopup type options callback).1.nativeCount = s.nativeCount ∧
      (s.createPopup type options callback).1.handles.length = s.handles.length) ∧
    (s.dedupHit type (Opts.merge (getDefaultOptionsForType type) (popupMerge type options)) = false →
      (s.createPopup type options callback).1.nativeCount = s.nativeCount + 1 ∧
      (s.createPopup type options callback).1.handles.length = s.handles.length + 1 ∧
      (s.createPopup type options callback).2 = some s.nextWid ∧
      ((((s.createPopup type options callback).1.finishLoad s.nextWid).getHandle lw).map
        Window.isShown = some lwin.isShown)) := by
  have hlww : lwin.wid = lw := wid_of_getHandle s lw lwin hlwin
  have hlwne : lw ≠ s.nextWid := by
    intro hcc
    rw [hcc, hfresh] at hlwin
    cases hlwin
  have hZne : s.nextWid ≠ lw := fun hcc => hlwne hcc.symm
  have hnshow : ¬(type ≠ "genericWindow") := fun hcc => hcc htypeg
  have hdecf : decide (type ≠ "genericWindow") = false := decide_eq_false hnshow
  have hcf : s.createPopup type options callback
      = s.popupFresh type (popupMerge type options) callback := by
    unfold MgrState.createPopup
    rcases hgb : s.getByType "genericWindow" with _ | gw
    · simp [hgb]
    · have hga : gw.isAvailable = false := by
        unfold MgrState.genericAvailable at hng
        rw [hgb] at hng
        exact hng
      simp [hgb, hga]
  have genFresh : (s.create type (popupMerge type options) callback
        = s.createNew type
            (Opts.merge (getDefaultOptionsForType type) (popupMerge type options)) callback) →
      ((((s.createPopup type options callback).1.getHandle lw).map Window.isShown
          = some lwin.isShown) ∧
        (s.createPopup type options callback).1.nativeCount = s.nativeCount + 1 ∧
        (s.createPopup type options callback).1.handles.length = s.handles.length + 1 ∧
        (s.createPopup type options callback).2 = some s.nextWid ∧
        ((((s.createPopup type options callback).1.finishLoad s.nextWid).getHandle lw).map
          Window.isShown = some lwin.isShown)) := by
    intro hcd
    have key : s.createPopup type options callback
        = ((s.createNew type
              (Opts.merge (getDefaultOptionsForType type) (popupMerge type options)) callback).1.setHandle
            { mkWindow s.nextWid type
                (Opts.merge (getDefaultOptionsForType type) (popupMerge type options)) with
                callback := callback
                hideLoadingOnReady := false },
           some s.nextWid) := by
      rw [hcf]
      simp only [MgrState.popupFresh, hdecf]
      rw [if_neg hnshow, hcd,
        getHandle_createNew s type
          (Opts.merge (getDefaultOptionsForType type) (popupMerge type options)) callback hfresh]
      rfl
    have hG2 : (s.createNew type
        (Opts.merge (getDefaultOptionsForType type) (popupMerge type options)) callback).1.getHandle lw
        = some lwin :=
      getHandle_createNew_other s type _ callback lw lwin hlwin
    have hFlw : (s.createPopup type options callback).1.getHandle lw = some lwin := by
      rw [key]
      exact (getHandle_setHandle_other _ _ lw hZne).trans hG2
    have hW : (s.createNew type
        (Opts.merge (getDefaultOptionsForType type) (popupMerge type options)) callback).1.getHandle
          s.nextWid
        = some { mkWindow s.nextWid type
            (Opts.merge (getDefaultOptionsForType type) (popupMerge type options)) with
            callback := callback } :=
      getHandle_createNew s type _ callback hfresh
    have hFz : (s.createPopup type options callback).1.getHandle s.nextWid
        = some { mkWindow s.nextWid type
            (Opts.merge (getDefaultOptionsForType type) (popupMerge type options)) with
            callback := callback
            hideLoadingOnReady := false } := by
      rw [key]
      exact getHandle_setHandle_self' _ s.nextWid _ _ hW rfl
    refine ⟨?_, ?_, ?_, ?_, ?_⟩
    · rw [hFlw, Option.map_some']
    · rw [key]
      rfl
    · rw [key]
      simp [MgrState.setHandle, MgrState.createNew]
    · rw [key]
    · exact finishLoad_no_hide_keeps _ s.nextWid _ hFz rfl rfl rfl lw lwin hZne hFlw
  rcases hbt : s.getByType type with _ | ex
  · have hdd : s.dedupHit type
        (Opts.merge (getDefaultOptionsForType type) (popupMerge type options)) = false := by
      unfold MgrState.dedupHit
      rw [hbt]
    have hcd : s.create type (popupMerge type options) callback
        = s.createNew type
            (Opts.merge (getDefaultOptionsForType type) (popupMerge type options)) callback := by
      unfold MgrState.create
      rw [hbt]
    obtain ⟨hA, h1, h2, h3, h4⟩ := genFresh hcd
    exact ⟨hA, fun hcontra => absurd hcontra (by simp [hdd]), fun _ => ⟨h1, h2, h3, h4⟩⟩
  · cases hde : decide (ex.ownerId
        = (Opts.merge (getDefaultOptionsForType type) (popupMerge type options)).ownerVal) with
    | false =>
      have hdd : s.dedupHit type
          (Opts.merge (getDefaultOptionsForType type) (popupMerge type options)) = false := by
        unfold MgrState.dedupHit
        rw [hbt]
        exact hde
      have hnde : ex.ownerId
          ≠ (Opts.merge (getDefaultOptionsForType type) (popupMerge type options)).ownerVal :=
        of_decide_eq_false hde
      have hcd : s.create type (popupMerge type options) callback
          = s.createNew type
              (Opts.merge (getDefaultOptionsForType type) (popupMerge type options)) callback := by
        unfold MgrState.create
        rw [hbt]
        show (if ex.ownerId
              = (Opts.merge (getDefaultOptionsForType type) (popupMerge type options)).ownerVal
            then (s, ex.wid)
            else s.createNew type
              (Opts.merge (getDefaultOptionsForType type) (popupMerge type options)) callback)
          = s.createNew type
              (Opts.merge (getDefaultOptionsForType type) (popupMerge type options)) callback
        rw [if_neg hnde]
      obtain ⟨hA, h1, h2, h3, h4⟩ := genFresh hcd
      exact ⟨hA, fun hcontra => absurd hcontra (by simp [hdd]), fun _ => ⟨h1, h2, h3, h4⟩⟩
    | true =>
      have hdd : s.dedupHit type
          (Opts.merge (getDefaultOptionsForType type) (popupMerge type options)) = true := by
        unfold MgrState.dedupHit
        rw [hbt]
        exact hde
      have hde' : ex.ownerId
          = (Opts.merge (getDefaultOptionsForType type) (popupMerge type options)).ownerVal :=
        of_decide_eq_true hde
      have hcds : s.create type (popupMerge type options) callback = (s, ex.wid) := by
        unfold MgrState.create
        rw [hbt]
        show (if ex.ownerId
              = (Opts.merge (getDefaultOptionsForType type) (popupMerge type options)).ownerVal
            then (s, ex.wid)
            else s.createNew type
              (Opts.merge (getDefaultOptionsForType type) (popupMerge type options)) callback)
          = (s, ex.wid)
        rw [if_pos hde']
      rcases hgx : s.getHandle ex.wid with _ | w0
      · have keyB : s.createPopup type options callback = (s, some ex.wid) := by
          rw [hcf]
          simp only [MgrState.popupFresh]
          rw [if_neg hnshow, hcds, hgx]
        refine ⟨?_, fun _ => ⟨?_, ?_⟩, fun hcontra => absurd hcontra (by simp [hdd])⟩
        · rw [keyB, hlwin, Option.map_some']
        · rw [keyB]
        · rw [keyB]
      · have hw0wid : w0.wid = ex.wid := wid_of_getHandle _ _ _ hgx
        have keyB : s.createPopup type options callback
            = (s.setHandle { w0 with hideLoadingOnReady := false }, some ex.wid) := by
          rw [hcf]
          simp only [MgrState.popupFresh, hdecf]
          rw [if_neg hnshow, hcds, hgx]
        refine ⟨?_, fun _ => ⟨?_, ?_⟩, fun hcontra => absurd hcontra (by simp [hdd])⟩
        · by_cases hel : ex.wid = lw
          · have hw0 : w0 = lwin := by
              rw [hel] at hgx
              exact Option.some.inj (hgx.symm.trans hlwin)
            rw [keyB]
            rw [getHandle_setHandle_self' s lw lwin { w0 with hideLoadingOnReady := false }
              hlwin (hw0wid.trans hel), Option.map_some']
            show some w0.isShown = some lwin.isShown
            rw [hw0]
          · rw [keyB]
            rw [getHandle_setHandle_other s { w0 with hideLoadingOnReady := false } lw
              (by show w0.wid ≠ lw; rw [hw0wid]; exact hel)]
            rw [hlwin, Option.map_some']
        · rw [keyB]
          rfl
        · rw [keyB]
          simp [MgrState.setHandle]

/-- C9 amended: when `createPopup` takes the non-recycling path (well-formed
handle store, live loading window, fresh id unused), then for a non-generic
type the loading indicator is shown before creation and hidden by the new
popup's `ready` event, while for type `"genericWindow"` itself the loading
indicator is neither shown nor hidden (its visibility is untouched, also at
the new content's load); in both cases exactly one new handle and native
window are created and the new handle id returned unless a window of the
requested type with the merged `ownerId` already exists, in which case
`create` returns the existing handle and nothing new is created. -/
theorem createPopup_fresh_amended (s : MgrState) (type : String) (options : Opts)
    (callback : Option Nat) (lw : Nat) (lwin : Window)
    (hng : s.genericAvailable = false)
    (hlw : s.loadingWid = some lw)
    (hlwin : s.getHandle lw = some lwin)
    (hlc : lwin.isClosed = false)
    (hfresh : s.getHandle s.nextWid = none)
    (hwf : (s.handles.map Window.wid).Nodup) :
    (type ≠ "genericWindow" →
      (((s.createPopup type options callback).1.getHandle lw).map Window.isShown = some true) ∧
      (s.dedupHit type (Opts.merge (getDefaultOptionsForType type) (popupMerge type options)) = true →
        (s.createPopup type options callback).1.nativeCount = s.nativeCount ∧
        (s.createPopup type options callback).1.handles.length = s.handles.length) ∧
      (s.dedupHit type (Opts.merge (getDefaultOptionsForType type) (popupMerge type options)) = false →
        (s.createPopup type options callback).1.nativeCount = s.nativeCount + 1 ∧
        (s.createPopup type options callback).1.handles.length = s.handles.length + 1 ∧
        (s.createPopup type options callback).2 = some s.nextWid ∧
        ((((s.createPopup type options callback).1.finishLoad s.nextWid).getHandle lw).map
          Window.isShown = some false))) ∧
    (type = "genericWindow" →
      (((s.createPopup type options callback).1.getHandle lw).map Window.isShown
        = some lwin.isShown) ∧
      (s.dedupHit type (Opts.merge (getDefaultOptionsForType type) (popupMerge type options)) = true →
        (s.createPopup type options callback).1.nativeCount = s.nativeCount ∧
        (s.createPopup type options callback).1.handles.length = s.handles.length) ∧
      (s.dedupHit type (Opts.merge (getDefaultOptionsForType type) (popupMerge type options)) = false →
        (s.createPopup type options callback).1.nativeCount = s.nativeCount + 1 ∧
        (s.createPopup type options callback).1.handles.length = s.handles.length + 1 ∧
        (s.createPopup type options callback).2 = some s.nextWid ∧
        ((((s.createPopup type options callback).1.finishLoad s.nextWid).getHandle lw).map
          Window.isShown = some lwin.isShown))) :=
  ⟨fun htype =>
    createPopup_fresh_nongeneric s type options callback lw lwin hng htype hlw hlwin hlc
      hfresh hwf,
   fun htypeg =>
    createPopup_generic_indicator s type options callback lw lwin hng htypeg hlwin hfresh⟩

/-- The registry after `init()` and one recycled popup: the generic pooled
window (handle 1) has been consumed, so subsequent popups take the
non-recycling path. -/
def c9s1 : MgrState := (initState.createPopup "about" {} none).1

/-- Second `createPopup("about")`: non-recycling, creates the actual
"about" handle (id 2, a new native window). -/
def c9r2 : MgrState × Option Nat := c9s1.createPopup "about" {} none

/-- Third `createPopup("about")`: non-recycling again, but `create`'s dedup
check fires on the existing "about" handle. -/
def c9r3 : MgrState × Option Nat := c9r2.1.createPopup "about" {} none

/-- Counterexample for C9: a `createPopup` on the non-recycling path can
create zero new handles — the third `createPopup("about")` returns the
existing handle (same id as the second call), allocates no native window
and adds no handle, contradicting "exactly one new handle is created via
create". -/
theorem popupFresh_one_handle_counterexample :
    c9s1.genericAvailable = false ∧
    c9r2.2 = some 2 ∧
    c9r3.1.handles.length = c9r2.1.handles.length ∧
    c9r3.1.nativeCount = c9r2.1.nativeCount ∧
    c9r3.2 = c9r2.2 :=
  ⟨rfl, rfl, rfl, rfl, rfl⟩

/-- Witness for the amended C9, exercising both cases on the consumed-pool
registry: a fresh `"requestAccount"` popup (loading indicator shown, hidden
at `ready`) and a `"genericWindow"` creation (loading indicator untouched,
dedup on the existing pooled handle). -/
theorem createPopup_fresh_amended_witness :
    ((((c9s1.createPopup "requestAccount" {} none).1.getHandle 0).map Window.isShown
      = some true) ∧
    (c9s1.dedupHit "requestAccount"
        (Opts.merge (getDefaultOptionsForType "requestAccount")
          (popupMerge "requestAccount" {})) = true →
      (c9s1.createPopup "requestAccount" {} none).1.nativeCount = c9s1.nativeCount ∧
      (c9s1.createPopup "requestAccount" {} none).1.handles.length = c9s1.handles.length) ∧
    (c9s1.dedupHit "requestAccount"
        (Opts.merge (getDefaultOptionsForType "requestAccount")
          (popupMerge "requestAccount" {})) = false →
      (c9s1.createPopup "requestAccount" {} none).1.nativeCount = c9s1.nativeCount + 1 ∧
      (c9s1.createPopup "requestAccount" {} none).1.handles.length = c9s1.handles.length + 1 ∧
      (c9s1.createPopup "requestAccount" {} none).2 = some c9s1.nextWid ∧
      ((((c9s1.createPopup "requestAccount" {} none).1.finishLoad c9s1.nextWid).getHandle 0).map
        Window.isShown = some false))) ∧
    ((((c9s1.createPopup "genericWindow" {} none).1.getHandle 0).map Window.isShown
      = some (wAt c9s1 0).isShown) ∧
    (c9s1.dedupHit "genericWindow"
        (Opts.merge (getDefaultOptionsForType "genericWindow")
          (popupMerge "genericWindow" {})) = true →
      (c9s1.createPopup "genericWindow" {} none).1.nativeCount = c9s1.nativeCount ∧
      (c9s1.createPopup "genericWindow" {} none).1.handles.length = c9s1.handles.length) ∧
    (c9s1.dedupHit "genericWindow"
        (Opts.merge (getDefaultOptionsForType "genericWindow")
          (popupMerge "genericWindow" {})) = false →
      (c9s1.createPopup "genericWindow" {} none).1.nativeCount = c9s1.nativeCount + 1 ∧
      (c9s1.createPopup "genericWindow" {} none).1.handles.length = c9s1.handles.length + 1 ∧
      (c9s1.createPopup "genericWindow" {} none).2 = some c9s1.nextWid ∧
      ((((c9s1.createPopup "genericWindow" {} none).1.finishLoad c9s1.nextWid).getHandle 0).map
        Window.isShown = some (wAt c9s1 0).isShown))) :=
  ⟨(createPopup_fresh_amended c9s1 "requestAccount" {} none 0 (wAt c9s1 0)
      rfl rfl rfl rfl rfl (by decide)).1 (by decide),
   (createPopup_fresh_amended c9s1 "genericWindow" {} none 0 (wAt c9s1 0)
      rfl rfl rfl rfl rfl (by decide)).2 rfl⟩
